import Mathlib

/-!
# Verification of the GltfLoader assembly pipeline

A shallow embedding of `src/Source/Scene/GltfLoader.js`: the synchronous
dependency-assembly pass (`parse`, `loadNodes`, `loadNode`, `loadPrimitive`,
`loadMaterial`, `loadSkin`, `loadInstances`, ...), the completion
continuations registered on sub-loader promises, and the orchestrator-level
state transitions (`load`'s callbacks, `handleError`, the `when.all`
aggregation and `unload`).

Modelling conventions:
* JavaScript values that may be `undefined` are modelled as `Option`;
  `defined(x)` is `Option.isSome`.
* JavaScript numbers are modelled as `ℚ` where fractional values flow
  (weights, factors, matrix entries) and as `Nat` for indices and enums.
* Math objects (`Cartesian2/3/4`, `Quaternion`, `Matrix2/3/4`) are
  represented by their component lists; `MathType.unpack` takes the type's
  component count from the front of the array, as the source's `unpack`
  reads that many indexed elements.
* Node references are represented by the node's index in the flat node
  table (the spec's own arena representation of the DAG-shaped graph);
  an out-of-range table lookup yields `none` (JS `undefined`).
* An operation that would throw a `TypeError` in JavaScript (a property
  read or call on `undefined`) is modelled by an `Option`-valued function
  returning `none`.
* GPU buffer and texture handles are opaque; they are modelled as `Nat`
  tokens carried by the sub-loader results.
-/

/-! ## Primitive types and enums -/

/-- Opaque GPU vertex/index buffer handle produced by a buffer loader. -/
abbrev BufferHandle := Nat

/-- Opaque GPU texture handle produced by a texture loader. -/
abbrev TextureHandle := Nat

/-- Accessor element arity (`AttributeType.js`): scalar, vector or matrix. -/
inductive AttributeType where
  | SCALAR | VEC2 | VEC3 | VEC4 | MAT2 | MAT3 | MAT4
deriving DecidableEq

/-- Component datatype of accessor elements (`ComponentDatatype.js`). -/
inductive ComponentDatatype where
  | BYTE | UNSIGNED_BYTE | SHORT | UNSIGNED_SHORT | INT | UNSIGNED_INT | FLOAT
deriving DecidableEq

/-- Modelled from the spec: `ComponentDatatype.getSizeInBytes`
(`Source/Core/ComponentDatatype.js`, not under `src/`): byte size of one
component of the given datatype. -/
def ComponentDatatype.getSizeInBytes : ComponentDatatype → Nat
  | .BYTE => 1
  | .UNSIGNED_BYTE => 1
  | .SHORT => 2
  | .UNSIGNED_SHORT => 2
  | .INT => 4
  | .UNSIGNED_INT => 4
  | .FLOAT => 4

/-- Modelled from the spec: `numberOfComponentsForType`
(`Source/ThirdParty/GltfPipeline`, not under `src/`): the element arity
(number of components) of an accessor type. -/
def numberOfComponentsForType : AttributeType → Nat
  | .SCALAR => 1
  | .VEC2 => 2
  | .VEC3 => 3
  | .VEC4 => 4
  | .MAT2 => 4
  | .MAT3 => 9
  | .MAT4 => 16

/-- The math types `getMathType` selects among (`Source/Core` math classes). -/
inductive MathType where
  | Number | Cartesian2 | Cartesian3 | Cartesian4 | Quaternion
  | Matrix2 | Matrix3 | Matrix4
deriving DecidableEq

/-- Component count of a math object of the given type. -/
def MathType.componentCount : MathType → Nat
  | .Number => 1
  | .Cartesian2 => 2
  | .Cartesian3 => 3
  | .Cartesian4 => 4
  | .Quaternion => 4
  | .Matrix2 => 4
  | .Matrix3 => 9
  | .Matrix4 => 16

/-- `MathType.unpack(values)`: reads the type's component count of elements
from the front of the array (math objects are represented by their component
lists). -/
def MathType.unpack (mathType : MathType) (values : List ℚ) : List ℚ :=
  values.take mathType.componentCount

/-- `Matrix4.IDENTITY` (`Source/Core/Matrix4.js`), as its 16 column-major
components. -/
def Matrix4.IDENTITY : List ℚ :=
  [1, 0, 0, 0, 0, 1, 0, 0, 0, 0, 1, 0, 0, 0, 0, 1]

/-- `Matrix4.unpack(array, startingIndex)`: reads 16 consecutive components
starting at `startingIndex`. -/
def Matrix4.unpack (array : List ℚ) (startingIndex : Nat) : List ℚ :=
  (array.drop startingIndex).take 16

/-- `getMathType` (GltfLoader.js): the math type for an accessor type. -/
def getMathType : AttributeType → MathType
  | .SCALAR => .Number
  | .VEC2 => .Cartesian2
  | .VEC3 => .Cartesian3
  | .VEC4 => .Cartesian4
  | .MAT2 => .Matrix2
  | .MAT3 => .Matrix3
  | .MAT4 => .Matrix4

/-- `fromArray` (GltfLoader.js): `undefined` stays `undefined`; a `Number`
value is returned as is; otherwise the math type unpacks the array. -/
def fromArray (mathType : MathType) (values : Option (List ℚ)) : Option (List ℚ) :=
  match values with
  | none => none
  | some v =>
    match mathType with
    | .Number => some v
    | t => some (t.unpack v)

/-- `getDefault` (GltfLoader.js): the zero-valued instance of the math type
(`0.0` for `Number`, `new MathType()` otherwise), as its component list. -/
def getDefault (mathType : MathType) : List ℚ :=
  List.replicate mathType.componentCount 0

/-- `defaultValue(a, b)` (`Source/Core/defaultValue.js`): `a` when defined,
else `b`. -/
def defaultValue {α : Type} (a b : Option α) : Option α :=
  match a with
  | some _ => a
  | none => b

/-- The for-push loops of the source collect results of `f` over a list; a
`none` from `f` models a thrown exception aborting the whole pass. -/
def mapOption {α β : Type} (f : α → Option β) : List α → Option (List β)
  | [] => some []
  | x :: xs =>
    match f x with
    | none => none
    | some y =>
      match mapOption f xs with
      | none => none
      | some ys => some (y :: ys)

/-- A JavaScript `for (i = 0; i < bound; ++i)` loop whose bound may be
`undefined`: `i < undefined` is `false`, so an undefined bound runs zero
iterations. -/
def jsLoopCount (bound : Option Nat) : Nat :=
  match bound with
  | some n => n
  | none => 0

/-! ## glTF document model

The structured in-memory glTF document handed over by the document-source
collaborator (`gltfJsonLoader.gltf`): the fields the assembly pass reads. -/

/-- A glTF textureInfo reference (`index` into `gltf.textures`, UV set). -/
structure TextureInfo where
  index : Option Nat := none
  texCoord : Option Nat := none
deriving DecidableEq

/-- A glTF buffer view; only `byteStride` is consulted by the modelled
code (through `getAccessorByteStride`). -/
structure GltfBufferView where
  byteStride : Option Nat := none
deriving DecidableEq

/-- A glTF accessor: a typed strided view into a buffer view. -/
structure GltfAccessor where
  bufferView : Option Nat := none
  byteOffset : Nat := 0
  componentType : ComponentDatatype := .FLOAT
  normalized : Option Bool := none
  count : Nat := 0
  type : AttributeType := .SCALAR
  min : Option (List ℚ) := none
  max : Option (List ℚ) := none
deriving DecidableEq

/-- The `KHR_draco_mesh_compression` extension payload of a primitive:
`attributes` maps attribute semantics to Draco stream ids. -/
structure Draco where
  attributes : Option (List (String × Nat)) := none
deriving DecidableEq

/-- `featureIds` of a feature-ID attribute (`EXT_feature_metadata`). -/
structure GltfFeatureIdsAttr where
  «attribute» : Option String := none
  «constant» : Option ℚ := none
  divisor : Option ℚ := none
deriving DecidableEq

/-- A feature-ID attribute entry of `EXT_feature_metadata`. -/
structure GltfFeatureIdAttribute where
  featureTable : Option String := none
  featureIds : GltfFeatureIdsAttr := {}
deriving DecidableEq

/-- `featureIds` of a feature-ID texture (`EXT_feature_metadata`). -/
structure GltfFeatureIdsTex where
  texture : TextureInfo := {}
  channels : Option String := none
deriving DecidableEq

/-- A feature-ID texture entry of `EXT_feature_metadata`. -/
structure GltfFeatureIdTexture where
  featureTable : Option String := none
  featureIds : GltfFeatureIdsTex := {}
deriving DecidableEq

/-- The `EXT_feature_metadata` payload on a primitive or instancing block. -/
structure FeatureMetadataExt where
  featureIdAttributes : Option (List GltfFeatureIdAttribute) := none
  featureIdTextures : Option (List GltfFeatureIdTexture) := none
  featureTextures : Option (List String) := none
deriving DecidableEq

/-- The extensions object of a glTF primitive; `defaultValue(...,
EMPTY_OBJECT)` makes an absent object behave as one with no members. -/
structure PrimitiveExtensions where
  KHR_draco_mesh_compression : Option Draco := none
  EXT_feature_metadata : Option FeatureMetadataExt := none
deriving DecidableEq

/-- `EMPTY_OBJECT` seen through `PrimitiveExtensions`: no members. -/
def PrimitiveExtensions.empty : PrimitiveExtensions := {}

/-- A glTF mesh primitive: attribute/target maps are semantic-to-accessor
association lists, iterated in stored order. -/
structure GltfPrimitive where
  material : Option Nat := none
  attributes : Option (List (String × Nat)) := none
  targets : Option (List (List (String × Nat))) := none
  indices : Option Nat := none
  mode : Option Nat := none
  extensions : Option PrimitiveExtensions := none
deriving DecidableEq

/-- A glTF mesh: primitives plus optional default morph weights. -/
structure GltfMesh where
  primitives : List GltfPrimitive := []
  weights : Option (List ℚ) := none
deriving DecidableEq

/-- `pbrMetallicRoughness` of a glTF material. -/
structure GltfMetallicRoughness where
  baseColorTexture : Option TextureInfo := none
  metallicRoughnessTexture : Option TextureInfo := none
  baseColorFactor : Option (List ℚ) := none
  metallicFactor : Option ℚ := none
  roughnessFactor : Option ℚ := none
deriving DecidableEq

/-- The `KHR_materials_pbrSpecularGlossiness` extension payload. -/
structure GltfSpecularGlossiness where
  diffuseTexture : Option TextureInfo := none
  specularGlossinessTexture : Option TextureInfo := none
  diffuseFactor : Option (List ℚ) := none
  specularFactor : Option (List ℚ) := none
  glossinessFactor : Option ℚ := none
deriving DecidableEq

/-- The extensions object of a glTF material. -/
structure GltfMaterialExtensions where
  KHR_materials_pbrSpecularGlossiness : Option GltfSpecularGlossiness := none
deriving DecidableEq

/-- A glTF material as stored in the document. -/
structure GltfMaterial where
  pbrMetallicRoughness : Option GltfMetallicRoughness := none
  extensions : Option GltfMaterialExtensions := none
  emissiveTexture : Option TextureInfo := none
  normalTexture : Option TextureInfo := none
  occlusionTexture : Option TextureInfo := none
  emissiveFactor : Option (List ℚ) := none
  alphaMode : Option String := none
  alphaCutoff : Option ℚ := none
  doubleSided : Option Bool := none
deriving DecidableEq

/-- Sampler settings (`Source/Renderer/Sampler.js`): wrap modes and
filters, carried as their WebGL enum values. -/
structure Sampler where
  wrapS : Nat := 10497
  wrapT : Nat := 10497
  magnificationFilter : Nat := 9729
  minificationFilter : Nat := 9729
deriving DecidableEq

/-- Modelled from the spec: `Sampler.NEAREST` (`Source/Renderer/Sampler.js`,
not under `src/`): clamp-to-edge wrap, nearest-neighbour filters — the
sampler forced onto feature-ID textures because classification lookups must
not be interpolated. -/
def Sampler.NEAREST : Sampler :=
  { wrapS := 33071, wrapT := 33071
    magnificationFilter := 9728, minificationFilter := 9728 }

/-- A glTF texture: the image it references and its (inlined) sampler. -/
structure GltfTexture where
  source : Option Nat := none
  sampler : Option Sampler := none
deriving DecidableEq

/-- A glTF skin: joint node ids and an optional inverse-bind-matrix
accessor id. -/
structure GltfSkin where
  joints : List Nat := []
  inverseBindMatrices : Option Nat := none
deriving DecidableEq

/-- The extensions object nested inside an instancing block. -/
structure InstancingExtExtensions where
  EXT_feature_metadata : Option FeatureMetadataExt := none
deriving DecidableEq

/-- The `EXT_mesh_gpu_instancing` extension payload on a node. -/
structure InstancingExtension where
  attributes : Option (List (String × Nat)) := none
  extensions : Option InstancingExtExtensions := none
deriving DecidableEq

/-- `EMPTY_OBJECT` seen through `InstancingExtExtensions`. -/
def InstancingExtExtensions.empty : InstancingExtExtensions := {}

/-- The extensions object of a glTF node (or of a `ModelComponents.Node`,
where no such property exists and every read yields `undefined`). -/
structure NodeExtensions where
  EXT_mesh_gpu_instancing : Option InstancingExtension := none
deriving DecidableEq

/-- `EMPTY_OBJECT` seen through `NodeExtensions`. -/
def NodeExtensions.empty : NodeExtensions := {}

/-- A glTF node as stored in the document. -/
structure GltfNode where
  matrix : Option (List ℚ) := none
  translation : Option (List ℚ) := none
  rotation : Option (List ℚ) := none
  scale : Option (List ℚ) := none
  mesh : Option Nat := none
  weights : Option (List ℚ) := none
  children : Option (List Nat) := none
  skin : Option Nat := none
  extensions : Option NodeExtensions := none
deriving DecidableEq

/-- The glTF document: the tables the assembly pass indexes into. -/
structure Gltf where
  accessors : List GltfAccessor := []
  bufferViews : List GltfBufferView := []
  materials : List GltfMaterial := []
  meshes : List GltfMesh := []
  nodes : List GltfNode := []
  skins : List GltfSkin := []
  textures : List GltfTexture := []
deriving DecidableEq

/-- Modelled from the spec: `getAccessorByteStride`
(`Source/ThirdParty/GltfPipeline`, not under `src/`): the bufferView's
declared byte stride when present, else the tightly packed element size. -/
def getAccessorByteStride (gltf : Gltf) (accessor : GltfAccessor) : Nat :=
  let tightlyPacked :=
    ComponentDatatype.getSizeInBytes accessor.componentType *
      numberOfComponentsForType accessor.type
  match accessor.bufferView with
  | none => tightlyPacked
  | some bufferViewId =>
    match gltf.bufferViews.get? bufferViewId with
    | none => tightlyPacked
    | some bufferView =>
      match bufferView.byteStride with
      | some s => s
      | none => tightlyPacked

/-- Runtime capability report for image formats (`SupportedImageFormats.js`). -/
structure SupportedImageFormats where
  webp : Bool := false
  s3tc : Bool := false
  pvrtc : Bool := false
  etc1 : Bool := false
deriving DecidableEq

/-- The slice of the frame state the assembly pass consults. -/
structure FrameStateContext where
  instancedArrays : Bool := true
deriving DecidableEq

/-- Per-tick frame state handed to `process`. -/
structure FrameState where
  context : FrameStateContext := {}
deriving DecidableEq

/-! ## Output scene-graph model (`ModelComponents.js`)

`ModelComponents.js` is repository code not under `src/`; its classes are
plain field containers. Modelled from the spec: each constructor initializes
every field to `undefined` (or to an empty array for the list-valued
fields), and the loader fills fields in as sub-loaders resolve. -/

/-- Quantization descriptor attached to a Draco-decoded attribute; the
loader reads its `componentDatatype` and `octEncoded` fields. -/
structure Quantization where
  componentDatatype : ComponentDatatype := .FLOAT
  octEncoded : Bool := false
deriving DecidableEq

/-- `ModelComponents.Attribute`: a vertex attribute of the output graph. -/
structure ModelComponents.Attribute where
  semantic : Option String := none
  componentDatatype : Option ComponentDatatype := none
  type : Option AttributeType := none
  normalized : Option Bool := none
  count : Option Nat := none
  min : Option (List ℚ) := none
  max : Option (List ℚ) := none
  «constant» : Option (List ℚ) := none
  quantization : Option Quantization := none
  typedArray : Option (List ℚ) := none
  buffer : Option BufferHandle := none
  byteOffset : Option Nat := none
  byteStride : Option Nat := none
deriving DecidableEq

/-- `ModelComponents.Indices`: index data of a primitive. -/
structure ModelComponents.Indices where
  indexDatatype : Option ComponentDatatype := none
  count : Option Nat := none
  buffer : Option BufferHandle := none
deriving DecidableEq

/-- `ModelComponents.Texture`: UV set, sampler and a lazily-resolved GPU
texture handle. -/
structure ModelComponents.Texture where
  texture : Option TextureHandle := none
  texCoord : Option Nat := none
  sampler : Option Sampler := none
deriving DecidableEq

/-- `ModelComponents.MetallicRoughness`. -/
structure ModelComponents.MetallicRoughness where
  baseColorTexture : Option ModelComponents.Texture := none
  metallicRoughnessTexture : Option ModelComponents.Texture := none
  baseColorFactor : Option (List ℚ) := none
  metallicFactor : Option ℚ := none
  roughnessFactor : Option ℚ := none
deriving DecidableEq

/-- `ModelComponents.SpecularGlossiness`. -/
structure ModelComponents.SpecularGlossiness where
  diffuseTexture : Option ModelComponents.Texture := none
  specularGlossinessTexture : Option ModelComponents.Texture := none
  diffuseFactor : Option (List ℚ) := none
  specularFactor : Option (List ℚ) := none
  glossinessFactor : Option ℚ := none
deriving DecidableEq

/-- `ModelComponents.Material`. A fresh `Material` has no `extensions`
property, so the field is `none` and is never assigned by the loader. -/
structure ModelComponents.Material where
  metallicRoughness : Option ModelComponents.MetallicRoughness := none
  specularGlossiness : Option ModelComponents.SpecularGlossiness := none
  emissiveTexture : Option ModelComponents.Texture := none
  normalTexture : Option ModelComponents.Texture := none
  occlusionTexture : Option ModelComponents.Texture := none
  emissiveFactor : Option (List ℚ) := none
  alphaMode : Option String := none
  alphaCutoff : Option ℚ := none
  doubleSided : Option Bool := none
  extensions : Option GltfMaterialExtensions := none
deriving DecidableEq

/-- `ModelComponents.FeatureIdAttribute`. -/
structure ModelComponents.FeatureIdAttribute where
  featureTableId : Option String := none
  semantic : Option String := none
  «constant» : Option ℚ := none
  divisor : Option ℚ := none
deriving DecidableEq

/-- `ModelComponents.FeatureIdTexture`. -/
structure ModelComponents.FeatureIdTexture where
  featureTableId : Option String := none
  channel : Option String := none
  texture : Option ModelComponents.Texture := none
deriving DecidableEq

/-- `ModelComponents.MorphTarget`. -/
structure ModelComponents.MorphTarget where
  attributes : List ModelComponents.Attribute := []
deriving DecidableEq

/-- `ModelComponents.Primitive`. -/
structure ModelComponents.Primitive where
  attributes : List ModelComponents.Attribute := []
  indices : Option ModelComponents.Indices := none
  material : Option ModelComponents.Material := none
  morphTargets : List ModelComponents.MorphTarget := []
  morphWeights : Option (List ℚ) := none
  featureIdAttributes : List ModelComponents.FeatureIdAttribute := []
  featureIdTextures : List ModelComponents.FeatureIdTexture := []
  featureTexturesIds : Option (List String) := none
  primitiveType : Option Nat := none
deriving DecidableEq

/-- `ModelComponents.Instances`: the instancing block of a node. -/
structure ModelComponents.Instances where
  attributes : List ModelComponents.Attribute := []
  featureIdAttributes : List ModelComponents.FeatureIdAttribute := []
deriving DecidableEq

/-- `ModelComponents.Skin`: joint references (indices into the flat node
table; `none` for an out-of-range lookup) and inverse-bind matrices. -/
structure ModelComponents.Skin where
  joints : List (Option Nat) := []
  inverseBindMatrices : Option (List (List ℚ)) := none
deriving DecidableEq

/-- `ModelComponents.Node`. `children` holds indices into the flat node
table (the source stores references into the same table). A fresh `Node`
has no `extensions` property; the field stays `none`. -/
structure ModelComponents.Node where
  matrix : Option (List ℚ) := none
  translation : Option (List ℚ) := none
  rotation : Option (List ℚ) := none
  scale : Option (List ℚ) := none
  primitives : List ModelComponents.Primitive := []
  children : List Nat := []
  skin : Option ModelComponents.Skin := none
  instances : Option ModelComponents.Instances := none
  extensions : Option NodeExtensions := none
deriving DecidableEq

/-- Artifact produced by the dedicated feature-metadata loader
(`GltfFeatureMetadataLoader.js`, not under `src/`); opaque here. -/
structure FeatureMetadata where
  id : Nat := 0
deriving DecidableEq

/-- `ModelComponents.Components`: the top-level output. -/
structure ModelComponents.Components where
  nodes : List ModelComponents.Node := []
  featureMetadata : Option FeatureMetadata := none
deriving DecidableEq

/-! ## Texture and material loading -/

/-- Modelled from the spec: `GltfLoaderUtil.getImageIdFromTexture`
(`GltfLoaderUtil.js`, not under `src/`): the image-format negotiation step
selecting which image source to request for a texture; with no texture or
no usable image it yields `undefined`. -/
def GltfLoaderUtil.getImageIdFromTexture (gltf : Gltf) (textureId : Option Nat)
    (_supportedImageFormats : SupportedImageFormats) : Option Nat :=
  match textureId with
  | none => none
  | some id =>
    match gltf.textures.get? id with
    | none => none
    | some texture => texture.source

/-- Modelled from the spec: `GltfLoaderUtil.createSampler`
(`GltfLoaderUtil.js`, not under `src/`): the sampler (wrap S/T,
magnification/minification filters) declared by the document for the
texture, with defaults where the document declares none. -/
def GltfLoaderUtil.createSampler (gltf : Gltf) (textureInfo : TextureInfo) : Sampler :=
  let declared :=
    match textureInfo.index with
    | none => none
    | some id =>
      match gltf.textures.get? id with
      | none => none
      | some texture => texture.sampler
  match declared with
  | some sampler => sampler
  | none => {}

/-- `loadTexture` (GltfLoader.js:538): returns `undefined` when format
negotiation selects no image; otherwise builds the `Texture`, spawns a
texture loader through the cache and registers `textureContinuation` on its
promise (the asynchronous part is modelled by `textureContinuation`). -/
def loadTexture (gltf : Gltf) (textureInfo : TextureInfo)
    (supportedImageFormats : SupportedImageFormats) : Option ModelComponents.Texture :=
  match GltfLoaderUtil.getImageIdFromTexture gltf textureInfo.index supportedImageFormats with
  | none => none
  | some _ =>
    some { texCoord := textureInfo.texCoord
           sampler := some (GltfLoaderUtil.createSampler gltf textureInfo) }

/-- Property reads performed when a `ModelComponents.Texture` value is
passed where a glTF textureInfo is expected (as `loadMaterial` does for its
top-level texture slots): the value has no `index` property, so that read
yields `undefined`. -/
def ModelComponents.Texture.asTextureInfo (t : ModelComponents.Texture) : TextureInfo :=
  { index := none, texCoord := t.texCoord }

/-- `loadMaterial` (GltfLoader.js:578). Faithful to the source, including
that the specular-glossiness block reads `material.extensions` and the
top-level texture blocks read `material.emissiveTexture` /
`material.normalTexture` / `material.occlusionTexture` — fields of the
freshly constructed `Material`, not of `gltfMaterial`. -/
def loadMaterial (gltf : Gltf) (gltfMaterial : GltfMaterial)
    (supportedImageFormats : SupportedImageFormats) : ModelComponents.Material :=
  let material : ModelComponents.Material := {}
  -- Metallic roughness
  let material :=
    match gltfMaterial.pbrMetallicRoughness with
    | none => material
    | some pbrMetallicRoughness =>
      let metallicRoughness : ModelComponents.MetallicRoughness := {}
      let metallicRoughness :=
        match pbrMetallicRoughness.baseColorTexture with
        | none => metallicRoughness
        | some ti =>
          { metallicRoughness with
            baseColorTexture := loadTexture gltf ti supportedImageFormats }
      let metallicRoughness :=
        match pbrMetallicRoughness.metallicRoughnessTexture with
        | none => metallicRoughness
        | some ti =>
          { metallicRoughness with
            metallicRoughnessTexture := loadTexture gltf ti supportedImageFormats }
      { material with
        metallicRoughness := some
          { metallicRoughness with
            baseColorFactor := fromArray .Cartesian4 pbrMetallicRoughness.baseColorFactor
            metallicFactor := pbrMetallicRoughness.metallicFactor
            roughnessFactor := pbrMetallicRoughness.roughnessFactor } }
  -- Spec gloss extension: the source consults material.extensions — the
  -- Material value built above, which has no extensions — not
  -- gltfMaterial.extensions.
  let material :=
    match material.extensions with
    | none => material
    | some exts =>
      match exts.KHR_materials_pbrSpecularGlossiness with
      | none => material
      | some pbrSpecularGlossiness =>
        let specularGlossiness : ModelComponents.SpecularGlossiness := {}
        let specularGlossiness :=
          match pbrSpecularGlossiness.diffuseTexture with
          | none => specularGlossiness
          | some ti =>
            { specularGlossiness with
              diffuseTexture := loadTexture gltf ti supportedImageFormats }
        let specularGlossiness :=
          match pbrSpecularGlossiness.specularGlossinessTexture with
          | none => specularGlossiness
          | some ti =>
            { specularGlossiness with
              specularGlossinessTexture := loadTexture gltf ti supportedImageFormats }
        { material with
          specularGlossiness := some
            { specularGlossiness with
              diffuseFactor := fromArray .Cartesian4 pbrSpecularGlossiness.diffuseFactor
              specularFactor := fromArray .Cartesian3 pbrSpecularGlossiness.specularFactor
              glossinessFactor := pbrSpecularGlossiness.glossinessFactor } }
  -- Top level textures: likewise read from material, not gltfMaterial; the
  -- value found there would then be passed to loadTexture as a textureInfo.
  let material :=
    match material.emissiveTexture with
    | none => material
    | some t =>
      { material with
        emissiveTexture := loadTexture gltf t.asTextureInfo supportedImageFormats }
  let material :=
    match material.normalTexture with
    | none => material
    | some t =>
      { material with
        normalTexture := loadTexture gltf t.asTextureInfo supportedImageFormats }
  let material :=
    match material.occlusionTexture with
    | none => material
    | some t =>
      { material with
        occlusionTexture := loadTexture gltf t.asTextureInfo supportedImageFormats }
  { material with
    emissiveFactor := fromArray .Cartesian3 gltfMaterial.emissiveFactor
    alphaMode := gltfMaterial.alphaMode
    alphaCutoff := gltfMaterial.alphaCutoff
    doubleSided := gltfMaterial.doubleSided }

/-! ## Attribute, index and accessor loading -/

/-- `createAttribute` (GltfLoader.js:395): the synchronously initialized
fields of an output attribute; `none` models the `TypeError` thrown when
`accessorId` is out of range. -/
def createAttribute (gltf : Gltf) (accessorId : Nat) (semantic : String) :
    Option ModelComponents.Attribute :=
  match gltf.accessors.get? accessorId with
  | none => none
  | some accessor =>
    let mathType := getMathType accessor.type
    some { semantic := some semantic
           «constant» := some (getDefault mathType)
           componentDatatype := some accessor.componentType
           normalized := accessor.normalized
           count := some accessor.count
           type := some accessor.type
           min := fromArray mathType accessor.min
           max := fromArray mathType accessor.max
           byteOffset := some accessor.byteOffset
           byteStride := some (getAccessorByteStride gltf accessor) }

/-- `loadVertexAttribute` (GltfLoader.js:414), synchronous part: builds the
attribute; when a buffer view or a Draco payload backs it, a vertex-buffer
loader is spawned through the cache and `vertexAttributeContinuation` is
registered on its promise. -/
def loadVertexAttribute (gltf : Gltf) (accessorId : Nat) (semantic : String)
    (draco : Option Draco) : Option ModelComponents.Attribute :=
  match gltf.accessors.get? accessorId with
  | none => none
  | some accessor =>
    match createAttribute gltf accessorId semantic with
    | none => none
    | some «attribute» =>
      if draco.isNone && accessor.bufferView.isNone then
        some «attribute»
      else
        -- spawns the vertex-buffer loader; the registered continuation is
        -- vertexAttributeContinuation
        some «attribute»

/-- `loadIndices` (GltfLoader.js:515), synchronous part: `some none` is the
`undefined` return for an unindexed primitive; otherwise the `Indices`
skeleton is built, an index-buffer loader is spawned and
`indicesContinuation` registered. The outer `none` models the lookup throw
for an out-of-range `accessorId`. -/
def loadIndices (gltf : Gltf) (accessorId : Nat) (draco : Option Draco) :
    Option (Option ModelComponents.Indices) :=
  match gltf.accessors.get? accessorId with
  | none => none
  | some accessor =>
    if draco.isNone && accessor.bufferView.isNone then
      some none
    else
      some (some { indexDatatype := some accessor.componentType
                   count := some accessor.count })

/-- `getAccessorTypedArray` (GltfLoader.js:280), modelled at component
granularity (the `ArrayBuffer` view arithmetic is expressed on component
indices). Note the source writes the de-strided copy at `i * count + j`:
that index expression is reproduced as written. An out-of-range typed-array
read yields 0 here; an out-of-range write is dropped, as in JS. -/
def getAccessorTypedArray (gltf : Gltf) (accessor : GltfAccessor)
    (bufferViewTypedArray : List ℚ) : List ℚ :=
  let byteOffset := accessor.byteOffset
  let byteStride := getAccessorByteStride gltf accessor
  let count := accessor.count
  let componentCount := numberOfComponentsForType accessor.type
  let componentType := accessor.componentType
  let componentByteLength := ComponentDatatype.getSizeInBytes componentType
  let defaultByteStride := componentByteLength * componentCount
  let componentStride := byteStride / componentByteLength
  let componentsLength := count * componentCount
  let componentsTypedArray :=
    ((bufferViewTypedArray.drop (byteOffset / componentByteLength)).take
      (componentStride * componentsLength))
  if byteStride = defaultByteStride then
    componentsTypedArray
  else
    (List.range count).foldl
      (fun arr i =>
        (List.range componentCount).foldl
          (fun arr j =>
            arr.set (i * count + j)
              (componentsTypedArray.getD (i * componentStride + j) 0))
          arr)
      (List.replicate componentsLength 0)

/-! ## Skin loading -/

/-- The `Skin` object `loadSkin` (GltfLoader.js:317) constructs and
populates. Faithful to the source: after filling `skin.joints`, the
accessor id is read from `skin.inverseBindMatrices` — a field of the
`Skin` value just built, which is still `undefined` — rather than from
`gltfSkin.inverseBindMatrices`. The declared-accessor branch (which would
look the accessor up, spawn a buffer-view loader and register
`skinBufferViewContinuation`) is therefore unreachable; the defaulting
branch always runs. -/
def loadSkinConstruct (gltf : Gltf) (gltfSkin : GltfSkin)
    (nodes : List ModelComponents.Node) : ModelComponents.Skin :=
  let skin : ModelComponents.Skin := {}
  let jointIds := gltfSkin.joints
  let joints := jointIds.map (fun id =>
    if id < nodes.length then some id else none)
  let skin := { skin with joints := joints }
  let inverseBindMatricesAccessorId := skin.inverseBindMatrices
  match inverseBindMatricesAccessorId with
  | some _ =>
    -- unreachable: would spawn the buffer-view loader and register
    -- skinBufferViewContinuation, leaving inverseBindMatrices unset until
    -- the continuation runs
    skin
  | none =>
    { skin with
      inverseBindMatrices :=
        some (List.replicate jointIds.length Matrix4.IDENTITY) }

/-- `loadSkin` (GltfLoader.js:317) as an expression: the function body ends
without a `return` statement, so its value is `undefined` regardless of the
`Skin` it constructed. -/
def loadSkin (gltf : Gltf) (gltfSkin : GltfSkin)
    (nodes : List ModelComponents.Node) : Option ModelComponents.Skin :=
  let _skin := loadSkinConstruct gltf gltfSkin nodes
  none

/-! ## Feature metadata, morph targets and primitives -/

/-- `loadFeatureIdAttribute` (GltfLoader.js:683). -/
def loadFeatureIdAttribute (gltfFeatureIdAttribute : GltfFeatureIdAttribute) :
    ModelComponents.FeatureIdAttribute :=
  let featureIds := gltfFeatureIdAttribute.featureIds
  { featureTableId := gltfFeatureIdAttribute.featureTable
    semantic := featureIds.«attribute»
    «constant» := featureIds.«constant»
    divisor := featureIds.divisor }

/-- `loadFeatureIdTexture` (GltfLoader.js:693): `none` models the throw
when `loadTexture` returned `undefined` and the source then assigns
`featureIdTexture.texture.sampler`. -/
def loadFeatureIdTexture (gltf : Gltf) (gltfFeatureIdTexture : GltfFeatureIdTexture)
    (supportedImageFormats : SupportedImageFormats) :
    Option ModelComponents.FeatureIdTexture :=
  let featureIds := gltfFeatureIdTexture.featureIds
  let textureInfo := featureIds.texture
  match loadTexture gltf textureInfo supportedImageFormats with
  | none => none
  | some texture =>
    -- Feature ID textures require nearest sampling
    some { featureTableId := gltfFeatureIdTexture.featureTable
           channel := featureIds.channels
           texture := some { texture with sampler := some Sampler.NEAREST } }

/-- `loadMorphTarget` (GltfLoader.js:718): one vertex attribute per entry
of the target's semantic map (morph targets are never Draco compressed). -/
def loadMorphTarget (gltf : Gltf) (target : List (String × Nat)) :
    Option ModelComponents.MorphTarget :=
  match mapOption (fun sa => loadVertexAttribute gltf sa.2 sa.1 none) target with
  | none => none
  | some attrs => some { attributes := attrs }

/-- `loadPrimitive` (GltfLoader.js:734), material block. -/
def loadPrimitiveMaterialStep (gltf : Gltf) (gltfPrimitive : GltfPrimitive)
    (supportedImageFormats : SupportedImageFormats)
    (primitive : ModelComponents.Primitive) : Option ModelComponents.Primitive :=
  match gltfPrimitive.material with
  | none => some primitive
  | some materialId =>
    match gltf.materials.get? materialId with
    | none => none
    | some gltfMaterial =>
      some { primitive with
             material := some (loadMaterial gltf gltfMaterial supportedImageFormats) }

/-- `loadPrimitive`, vertex-attribute block: one attribute pushed per entry
of the primitive's semantic map. -/
def loadPrimitiveAttributesStep (gltf : Gltf) (gltfPrimitive : GltfPrimitive)
    (draco : Option Draco) (primitive : ModelComponents.Primitive) :
    Option ModelComponents.Primitive :=
  match gltfPrimitive.attributes with
  | none => some primitive
  | some attributes =>
    match mapOption (fun sa => loadVertexAttribute gltf sa.2 sa.1 draco) attributes with
    | none => none
    | some loaded =>
      some { primitive with attributes := primitive.attributes ++ loaded }

/-- `loadPrimitive`, morph-target block: pushes one morph target per entry
and sets `morphWeights` to a copy (`slice()`, which in this value model is
the list itself) of the passed weights when defined, else to a zero-filled
array sized to the target count. -/
def loadPrimitiveTargetsStep (gltf : Gltf) (gltfPrimitive : GltfPrimitive)
    (morphWeights : Option (List ℚ)) (primitive : ModelComponents.Primitive) :
    Option ModelComponents.Primitive :=
  match gltfPrimitive.targets with
  | none => some primitive
  | some targets =>
    match mapOption (loadMorphTarget gltf) targets with
    | none => none
    | some morphTargets =>
      some { primitive with
             morphTargets := primitive.morphTargets ++ morphTargets
             morphWeights := some
               (match morphWeights with
                | some ws => ws
                | none => List.replicate targets.length 0) }

/-- `loadPrimitive`, indices block. -/
def loadPrimitiveIndicesStep (gltf : Gltf) (gltfPrimitive : GltfPrimitive)
    (draco : Option Draco) (primitive : ModelComponents.Primitive) :
    Option ModelComponents.Primitive :=
  match gltfPrimitive.indices with
  | none => some primitive
  | some accessorId =>
    match loadIndices gltf accessorId draco with
    | none => none
    | some indices => some { primitive with indices := indices }

/-- `loadPrimitive`, feature-metadata block. The feature-ID-attribute loop
bound is `var featureIdAttributesLength = featureIdAttributesLength;` — the
declaration reads its own hoisted, still-undefined variable, so the loop
runs zero iterations (`i < undefined` is false). The feature-ID-texture
loop uses the payload's real length. -/
def loadPrimitiveFeatureMetadataStep (gltf : Gltf)
    (featureMetadata : Option FeatureMetadataExt)
    (supportedImageFormats : SupportedImageFormats)
    (primitive : ModelComponents.Primitive) : Option ModelComponents.Primitive :=
  match featureMetadata with
  | none => some primitive
  | some fm =>
    -- Feature ID Attributes
    let primitive :=
      match fm.featureIdAttributes with
      | none => primitive
      | some featureIdAttributes =>
        let featureIdAttributesLength : Option Nat := none
        { primitive with
          featureIdAttributes := primitive.featureIdAttributes ++
            (List.range (jsLoopCount featureIdAttributesLength)).filterMap
              (fun i => (featureIdAttributes.get? i).map loadFeatureIdAttribute) }
    -- Feature ID Textures
    match fm.featureIdTextures with
    | none => some { primitive with featureTexturesIds := fm.featureTextures }
    | some featureIdTextures =>
      match mapOption
          (fun t => loadFeatureIdTexture gltf t supportedImageFormats)
          featureIdTextures with
      | none => none
      | some loaded =>
        some { primitive with
               featureIdTextures := primitive.featureIdTextures ++ loaded
               featureTexturesIds := fm.featureTextures }

/-- `defaultValue(gltfPrimitive.extensions, defaultValue.EMPTY_OBJECT)`
(GltfLoader.js:755): an absent extensions object behaves as one with no
members. -/
def GltfPrimitive.extensionsOrEmpty (gltfPrimitive : GltfPrimitive) :
    PrimitiveExtensions :=
  match gltfPrimitive.extensions with
  | some e => e
  | none => PrimitiveExtensions.empty

/-- `loadPrimitive` (GltfLoader.js:734): the blocks in source order,
finishing with `primitive.primitiveType = gltfPrimitive.mode`. -/
def loadPrimitive (gltf : Gltf) (gltfPrimitive : GltfPrimitive)
    (morphWeights : Option (List ℚ))
    (supportedImageFormats : SupportedImageFormats) :
    Option ModelComponents.Primitive :=
  let primitive : ModelComponents.Primitive := {}
  let extensions := gltfPrimitive.extensionsOrEmpty
  let draco := extensions.KHR_draco_mesh_compression
  let featureMetadata := extensions.EXT_feature_metadata
  match loadPrimitiveMaterialStep gltf gltfPrimitive supportedImageFormats primitive with
  | none => none
  | some primitive =>
    match loadPrimitiveAttributesStep gltf gltfPrimitive draco primitive with
    | none => none
    | some primitive =>
      match loadPrimitiveTargetsStep gltf gltfPrimitive morphWeights primitive with
      | none => none
      | some primitive =>
        match loadPrimitiveIndicesStep gltf gltfPrimitive draco primitive with
        | none => none
        | some primitive =>
          match loadPrimitiveFeatureMetadataStep gltf featureMetadata
              supportedImageFormats primitive with
          | none => none
          | some primitive =>
            some { primitive with primitiveType := gltfPrimitive.mode }

/-! ## Instancing and nodes -/

/-- `loadInstancedAttribute` (GltfLoader.js:463), synchronous part: builds
the attribute; with a backing buffer view it spawns either a GPU
vertex-buffer loader (when the runtime supports instanced drawing,
registering `instancedAttributeBufferContinuation`) or a buffer-view
loader (registering `instancedAttributeTypedArrayContinuation`). -/
def loadInstancedAttribute (gltf : Gltf) (accessorId : Nat) (semantic : String)
    (frameState : FrameState) : Option ModelComponents.Attribute :=
  match gltf.accessors.get? accessorId with
  | none => none
  | some accessor =>
    match createAttribute gltf accessorId semantic with
    | none => none
    | some «attribute» =>
      if accessor.bufferView.isNone then
        some «attribute»
      else
        if frameState.context.instancedArrays then
          -- spawns the vertex-buffer loader (no draco for instanced
          -- attributes); continuation: instancedAttributeBufferContinuation
          some «attribute»
        else
          -- spawns the buffer-view loader; continuation:
          -- instancedAttributeTypedArrayContinuation
          some «attribute»

/-- `loadInstances` (GltfLoader.js:827). The nested feature-metadata
feature-ID-attribute loop has the same self-referential
`var featureIdAttributesLength = featureIdAttributesLength;` bound as
`loadPrimitive`, so it also runs zero iterations. -/
def loadInstances (gltf : Gltf) (instancingExtension : InstancingExtension)
    (frameState : FrameState) : Option ModelComponents.Instances :=
  let instances : ModelComponents.Instances := {}
  let step :=
    match instancingExtension.attributes with
    | none => some instances
    | some attributes =>
      match mapOption
          (fun sa => loadInstancedAttribute gltf sa.2 sa.1 frameState)
          attributes with
      | none => none
      | some loaded => some { instances with attributes := instances.attributes ++ loaded }
  match step with
  | none => none
  | some instances =>
    let extensions :=
      match instancingExtension.extensions with
      | some e => e
      | none => InstancingExtExtensions.empty
    match extensions.EXT_feature_metadata with
    | none => some instances
    | some featureMetadata =>
      match featureMetadata.featureIdAttributes with
      | none => some instances
      | some featureIdAttributes =>
        let featureIdAttributesLength : Option Nat := none
        some { instances with
               featureIdAttributes := instances.featureIdAttributes ++
                 (List.range (jsLoopCount featureIdAttributesLength)).filterMap
                   (fun i => (featureIdAttributes.get? i).map loadFeatureIdAttribute) }

/-- `loadNode` (GltfLoader.js:860). The instancing block reads
`defaultValue(node.extensions, EMPTY_OBJECT)` — `extensions` of the
`ModelComponents.Node` being built, which has no such property — not
`gltfNode.extensions`, so `EXT_mesh_gpu_instancing` is never found there. -/
def loadNode (gltf : Gltf) (gltfNode : GltfNode)
    (supportedImageFormats : SupportedImageFormats) (frameState : FrameState) :
    Option ModelComponents.Node :=
  let node : ModelComponents.Node := {}
  let node := { node with
    matrix := fromArray .Matrix4 gltfNode.matrix
    translation := fromArray .Cartesian3 gltfNode.translation
    rotation := fromArray .Quaternion gltfNode.rotation
    scale := fromArray .Cartesian3 gltfNode.scale }
  let meshStep :=
    match gltfNode.mesh with
    | none => some node
    | some meshId =>
      match gltf.meshes.get? meshId with
      | none => none
      | some mesh =>
        let morphWeights := defaultValue gltfNode.weights mesh.weights
        match mapOption
            (fun p => loadPrimitive gltf p morphWeights supportedImageFormats)
            mesh.primitives with
        | none => none
        | some primitives =>
          some { node with primitives := node.primitives ++ primitives }
  match meshStep with
  | none => none
  | some node =>
    let extensions :=
      match node.extensions with
      | some e => e
      | none => NodeExtensions.empty
    match extensions.EXT_mesh_gpu_instancing with
    | none => some node
    | some instancingExtension =>
      match loadInstances gltf instancingExtension frameState with
      | none => none
      | some instances => some { node with instances := some instances }

/-- One iteration of `loadNodes`' second pass (GltfLoader.js:917): pushes
the document node's children (as references into the flat node table) onto
the output node's children array. -/
def wireChildrenStep (gltf : Gltf) (ns : List ModelComponents.Node) (i : Nat) :
    List ModelComponents.Node :=
  match gltf.nodes.get? i with
  | none => ns
  | some gltfNode =>
    match gltfNode.children with
    | none => ns
    | some childrenNodeIds =>
      match ns.get? i with
      | none => ns
      | some n => ns.set i { n with children := n.children ++ childrenNodeIds }

/-- `loadNodes` (GltfLoader.js:901), second pass: the children arrays are
filled with references into the flat node table (indices here). -/
def wireChildren (gltf : Gltf) (nodes : List ModelComponents.Node) :
    List ModelComponents.Node :=
  (List.range nodes.length).foldl (wireChildrenStep gltf) nodes

/-- One iteration of `loadNodes`' third pass (GltfLoader.js:927): for a
document node declaring a skin, `nodes[i].skin = loadSkin(...)` — and
`loadSkin` returns `undefined`. A `none` accumulator (an earlier throw)
propagates; `none` arises when `skinId` is out of range and the source
would read `joints` off `undefined`. -/
def assignSkinsStep (gltf : Gltf) (acc : Option (List ModelComponents.Node))
    (i : Nat) : Option (List ModelComponents.Node) :=
  match acc with
  | none => none
  | some ns =>
    match gltf.nodes.get? i with
    | none => some ns
    | some gltfNode =>
      match gltfNode.skin with
      | none => some ns
      | some skinId =>
        match gltf.skins.get? skinId with
        | none => none
        | some gltfSkin =>
          match ns.get? i with
          | none => some ns
          | some n =>
            some (ns.set i { n with skin := loadSkin gltf gltfSkin ns })

/-- `loadNodes` (GltfLoader.js:901), third pass: skin assignment over
every document node. -/
def assignSkins (gltf : Gltf) (nodes : List ModelComponents.Node) :
    Option (List ModelComponents.Node) :=
  (List.range gltf.nodes.length).foldl (assignSkinsStep gltf) (some nodes)

/-- `loadNodes` (GltfLoader.js:901): builds every node, wires children,
then assigns skins. -/
def loadNodes (gltf : Gltf) (supportedImageFormats : SupportedImageFormats)
    (frameState : FrameState) : Option (List ModelComponents.Node) :=
  match mapOption (fun n => loadNode gltf n supportedImageFormats frameState)
      gltf.nodes with
  | none => none
  | some nodes =>
    let nodes := wireChildren gltf nodes
    assignSkins gltf nodes

/-! ## Orchestrator state machine

The `GltfLoader` instance state that the lifecycle callbacks mutate:
the cached document-loader reference, the spawned sub-loader list, the
lifecycle state and the settlement of the public promise. Cache
interactions (`ResourceCache.unload`, sub-loader `unload()`) and promise
settlement are recorded as an ordered event trace. -/

/-- `ResourceLoaderState` (`ResourceLoaderState.js`). -/
inductive ResourceLoaderState where
  | UNLOADED | LOADING | PROCESSING | READY | FAILED
deriving DecidableEq

/-- A runtime error with a structured cause chain: a bare error, or a
message wrapping an underlying cause. -/
inductive GltfError where
  | leaf : String → GltfError
  | wrap : String → GltfError → GltfError
deriving DecidableEq

/-- The message of an error. -/
def GltfError.message : GltfError → String
  | .leaf m => m
  | .wrap m _ => m

/-- The wrapped cause of an error (`undefined` for a bare error). -/
def GltfError.cause : GltfError → Option GltfError
  | .leaf _ => none
  | .wrap _ c => some c

/-- Modelled from the spec: `ResourceLoader.getError` (`ResourceLoader.js`,
not under `src/`): builds the structured cause chain surfaced to the
caller, the given message wrapping the originating cause. -/
def ResourceLoader.getError (errorMessage : String) (error : GltfError) : GltfError :=
  .wrap errorMessage error

/-- Observable side effects of the lifecycle callbacks, in program order:
releasing the cached glTF JSON loader, unloading a spawned sub-loader,
and settling the public promise. -/
inductive GltfLoaderEvent where
  | releaseJson : Nat → GltfLoaderEvent
  | unloadSubLoader : Nat → GltfLoaderEvent
  | resolvePromise : GltfLoaderEvent
  | rejectPromise : GltfError → GltfLoaderEvent
deriving DecidableEq

/-- Whether an event is part of `unload()`'s cleanup (a cache release or a
sub-loader unload), as opposed to a promise settlement. -/
def GltfLoaderEvent.isUnloadStep : GltfLoaderEvent → Bool
  | .releaseJson _ => true
  | .unloadSubLoader _ => true
  | .resolvePromise => false
  | .rejectPromise _ => false

/-- Equality of settled promise outcomes is decidable. -/
instance : DecidableEq (Except GltfError Unit) := fun a b =>
  match a, b with
  | .ok u, .ok v => .isTrue (by rfl)
  | .error e, .error f => if h : e = f then .isTrue (by rw [h]) else .isFalse (by simp [h])
  | .ok _, .error _ => .isFalse (by simp)
  | .error _, .ok _ => .isFalse (by simp)

/-- The mutable `GltfLoader` fields the lifecycle callbacks touch.
Sub-loaders are identified by opaque tokens. -/
structure GltfLoaderState where
  gltfJsonLoader : Option Nat := none
  loaders : List Nat := []
  state : ResourceLoaderState := .UNLOADED
  promiseResult : Option (Except GltfError Unit) := none
deriving DecidableEq

/-- `GltfLoader.prototype.unload` (GltfLoader.js:1025): releases the
document-loader cache reference when one is held, unloads each spawned
sub-loader, and empties the sub-loader list. -/
def GltfLoader.unload (st : GltfLoaderState) : GltfLoaderState × List GltfLoaderEvent :=
  let releaseEvents :=
    match st.gltfJsonLoader with
    | some id => [GltfLoaderEvent.releaseJson id]
    | none => []
  let subLoaderEvents := st.loaders.map GltfLoaderEvent.unloadSubLoader
  ({ st with gltfJsonLoader := none, loaders := [] },
   releaseEvents ++ subLoaderEvents)

/-- `handleError` (GltfLoader.js:174): unloads first, marks the loader
`FAILED`, wraps the originating cause in a "Failed to load glTF" error and
rejects the public promise with it. -/
def handleError (st : GltfLoaderState) (error : GltfError) :
    GltfLoaderState × List GltfLoaderEvent :=
  let unloaded := GltfLoader.unload st
  let st := { unloaded.1 with state := .FAILED }
  let errorMessage := "Failed to load glTF"
  let error := ResourceLoader.getError errorMessage error
  ({ st with promiseResult := some (.error error) },
   unloaded.2 ++ [GltfLoaderEvent.rejectPromise error])

/-- The fulfillment callback `load()` registers on the document loader's
promise (GltfLoader.js:160): checks the destroyed flag, then moves the
loader to `PROCESSING`. -/
def documentFetchThen (destroyed : Bool) (st : GltfLoaderState) : GltfLoaderState :=
  if destroyed then st
  else { st with state := .PROCESSING }

/-- The rejection callback `load()` registers on the document loader's
promise (GltfLoader.js:166): checks the destroyed flag, then runs
`handleError`. -/
def documentFetchOtherwise (destroyed : Bool) (st : GltfLoaderState)
    (error : GltfError) : GltfLoaderState × List GltfLoaderEvent :=
  if destroyed then (st, [])
  else handleError st error

/-- `when.all` over the spawned sub-loaders' already-settled outcomes:
fulfilled iff every promise fulfilled, rejected with a rejecting
sub-loader's cause otherwise. -/
def whenAll (results : List (Except GltfError Unit)) : Except GltfError Unit :=
  results.foldr
    (fun r acc =>
      match r with
      | .error e => .error e
      | .ok _ => acc)
    (.ok ())

/-- The aggregate completion `parse` registers (GltfLoader.js:1005):
on `when.all` fulfillment (destroyed flag permitting) the loader becomes
`READY` and its public promise resolves; on rejection `handleError` runs. -/
def aggregateFinish (destroyed : Bool) (st : GltfLoaderState)
    (outcomes : List (Except GltfError Unit)) :
    GltfLoaderState × List GltfLoaderEvent :=
  match whenAll outcomes with
  | .ok _ =>
    if destroyed then (st, [])
    else ({ st with state := .READY, promiseResult := some (.ok ()) },
          [GltfLoaderEvent.resolvePromise])
  | .error error =>
    if destroyed then (st, [])
    else handleError st error

/-! ## Sub-loader completion continuations

Each continuation is the callback the assembly pass registers on a
sub-loader's promise; its first argument is the owner's destroyed flag at
the time the promise resolves. -/

/-- Result fields of a resolved `GltfVertexBufferLoader`. -/
structure GltfVertexBufferLoaderResult where
  vertexBuffer : BufferHandle := 0
  quantization : Option Quantization := none
deriving DecidableEq

/-- `defined(draco) && defined(draco.attributes) &&
defined(draco.attributes[semantic])` (GltfLoader.js:438). -/
def dracoCovers (draco : Option Draco) (semantic : String) : Bool :=
  match draco with
  | none => false
  | some d =>
    match d.attributes with
    | none => false
    | some attrs => (attrs.lookup semantic).isSome

/-- The continuation `loadVertexAttribute` registers (GltfLoader.js:431):
fills the buffer handle; for a Draco-covered semantic it zeroes the byte
offset, clears the byte stride, takes the quantization's component
datatype, reclassifies an octahedral-encoded attribute as `VEC2`, and
records the quantization. `none` models the throw of reading
`quantization.componentDatatype` off `undefined`. -/
def vertexAttributeContinuation (destroyed : Bool) (draco : Option Draco)
    (semantic : String) (vertexBufferLoader : GltfVertexBufferLoaderResult)
    («attribute» : ModelComponents.Attribute) : Option ModelComponents.Attribute :=
  if destroyed then some «attribute»
  else
    let «attribute» := { «attribute» with
      buffer := some vertexBufferLoader.vertexBuffer }
    if dracoCovers draco semantic then
      -- The accessor's byteOffset and byteStride should be ignored for
      -- draco; each attribute is tightly packed after decode.
      match vertexBufferLoader.quantization with
      | none => none
      | some quantization =>
        let «attribute» := { «attribute» with
          byteOffset := some 0
          byteStride := none
          componentDatatype := some quantization.componentDatatype }
        let «attribute» :=
          if quantization.octEncoded then
            { «attribute» with type := some AttributeType.VEC2 }
          else «attribute»
        some { «attribute» with quantization := some quantization }
    else some «attribute»

/-- The continuation `loadInstancedAttribute` registers on the GPU
vertex-buffer path (GltfLoader.js:489). -/
def instancedAttributeBufferContinuation (destroyed : Bool)
    (vertexBuffer : BufferHandle) («attribute» : ModelComponents.Attribute) :
    ModelComponents.Attribute :=
  if destroyed then «attribute»
  else { «attribute» with buffer := some vertexBuffer }

/-- The continuation `loadInstancedAttribute` registers on the CPU
buffer-view fallback path (GltfLoader.js:499). -/
def instancedAttributeTypedArrayContinuation (destroyed : Bool) (gltf : Gltf)
    (accessor : GltfAccessor) (bufferViewTypedArray : List ℚ)
    («attribute» : ModelComponents.Attribute) : ModelComponents.Attribute :=
  if destroyed then «attribute»
  else { «attribute» with
         typedArray := some (getAccessorTypedArray gltf accessor bufferViewTypedArray) }

/-- The continuation `loadIndices` registers (GltfLoader.js:528). -/
def indicesContinuation (destroyed : Bool) (indexBuffer : BufferHandle)
    (indices : ModelComponents.Indices) : ModelComponents.Indices :=
  if destroyed then indices
  else { indices with buffer := some indexBuffer }

/-- The continuation `loadTexture` registers (GltfLoader.js:568). -/
def textureContinuation (destroyed : Bool) (loadedTexture : TextureHandle)
    (texture : ModelComponents.Texture) : ModelComponents.Texture :=
  if destroyed then texture
  else { texture with texture := some loadedTexture }

/-- The continuation `loadSkin` would register on the buffer-view loader
(GltfLoader.js:334): unpacks one 4x4 matrix per joint from the resolved
accessor range. -/
def skinBufferViewContinuation (destroyed : Bool) (gltf : Gltf)
    (accessor : GltfAccessor) (jointsLength : Nat)
    (bufferViewTypedArray : List ℚ) (skin : ModelComponents.Skin) :
    ModelComponents.Skin :=
  if destroyed then skin
  else
    let accessorTypedArray := getAccessorTypedArray gltf accessor bufferViewTypedArray
    let inverseBindMatrices :=
      (List.range jointsLength).map (fun i => Matrix4.unpack accessorTypedArray (i * 16))
    { skin with inverseBindMatrices := some inverseBindMatrices }

/-- The continuation `parse` registers for the feature-metadata loader
(GltfLoader.js:992). (The source registers it via `featureMetadataLoader.then`
rather than `featureMetadataLoader.promise.then`; the callback body itself
is as modelled.) -/
def featureMetadataContinuation (destroyed : Bool) (featureMetadata : FeatureMetadata)
    (components : ModelComponents.Components) : ModelComponents.Components :=
  if destroyed then components
  else { components with featureMetadata := some featureMetadata }

/-! ## Helper lemmas -/

/-- `mapOption` preserves length. -/
theorem mapOption_length {α β : Type} (f : α → Option β) (l : List α)
    (ys : List β) (h : mapOption f l = some ys) : ys.length = l.length := by
  induction l generalizing ys with
  | nil =>
    simp [mapOption] at h
    simp [← h]
  | cons x xs ih =>
    simp only [mapOption] at h
    cases hx : f x with
    | none => rw [hx] at h; exact absurd h (by simp)
    | some y =>
      rw [hx] at h
      cases hxs : mapOption f xs with
      | none => rw [hxs] at h; exact absurd h (by simp)
      | some ys' =>
        rw [hxs] at h
        cases h
        simp [ih ys' hxs]

/-- `mapOption` acts pointwise on positions. -/
theorem mapOption_get? {α β : Type} (f : α → Option β) (l : List α)
    (ys : List β) (h : mapOption f l = some ys) (k : Nat) (x : α)
    (hx : l.get? k = some x) : ∃ y, ys.get? k = some y ∧ f x = some y := by
  induction l generalizing ys k with
  | nil => simp at hx
  | cons a as ih =>
    simp only [mapOption] at h
    cases ha : f a with
    | none => rw [ha] at h; exact absurd h (by simp)
    | some y =>
      rw [ha] at h
      cases has : mapOption f as with
      | none => rw [has] at h; exact absurd h (by simp)
      | some ys' =>
        rw [has] at h
        cases h
        cases k with
        | zero =>
          simp at hx
          exact ⟨y, by simp, by rw [← hx]; exact ha⟩
        | succ k' =>
          simp only [List.get?] at hx ⊢
          exact ih ys' has k' hx

/-- Every element of a `mapOption` image comes from applying `f`. -/
theorem mapOption_mem {α β : Type} (f : α → Option β) (l : List α)
    (ys : List β) (h : mapOption f l = some ys) (y : β) (hy : y ∈ ys) :
    ∃ x, x ∈ l ∧ f x = some y := by
  induction l generalizing ys with
  | nil =>
    simp [mapOption] at h
    subst h
    simp at hy
  | cons a as ih =>
    simp only [mapOption] at h
    cases ha : f a with
    | none => rw [ha] at h; exact absurd h (by simp)
    | some y' =>
      rw [ha] at h
      cases has : mapOption f as with
      | none => rw [has] at h; exact absurd h (by simp)
      | some ys' =>
        rw [has] at h
        cases h
        rcases List.mem_cons.mp hy with rfl | hmem
        · exact ⟨a, List.mem_cons_self a as, ha⟩
        · rcases ih ys' has hmem with ⟨x, hxl, hfx⟩
          exact ⟨x, List.mem_cons_of_mem a hxl, hfx⟩

/-- `when.all` fulfills exactly when every constituent fulfilled. -/
theorem whenAll_ok_iff (results : List (Except GltfError Unit)) :
    whenAll results = .ok () ↔ ∀ r ∈ results, r = .ok () := by
  induction results with
  | nil => simp [whenAll]
  | cons r rs ih =>
    cases r with
    | ok u =>
      cases u
      simp only [whenAll, List.foldr_cons] at ih ⊢
      constructor
      · intro h s hs
        rcases List.mem_cons.mp hs with rfl | hmem
        · rfl
        · exact ih.mp h s hmem
      · intro h
        exact ih.mpr (fun s hs => h s (List.mem_cons_of_mem _ hs))
    | error e =>
      simp only [whenAll, List.foldr_cons]
      constructor
      · intro h; exact absurd h (by simp)
      · intro h
        have := h (.error e) (List.mem_cons_self _ _)
        exact absurd this (by simp)

/-- `when.all` rejects when some constituent rejected. -/
theorem whenAll_error_of_mem (results : List (Except GltfError Unit))
    (e : GltfError) (h : .error e ∈ results) :
    ∃ f, whenAll results = .error f := by
  induction results with
  | nil => simp at h
  | cons r rs ih =>
    cases r with
    | ok u =>
      rcases List.mem_cons.mp h with heq | hmem
      · exact absurd heq (by simp)
      · rcases ih hmem with ⟨f, hf⟩
        exact ⟨f, by simp only [whenAll, List.foldr_cons]; simpa [whenAll] using hf⟩
    | error e' =>
      exact ⟨e', by simp [whenAll]⟩

/-! ## Claim theorems: orchestrator lifecycle -/

/-- Whether an event releases the cached glTF JSON document loader. -/
def GltfLoaderEvent.isReleaseJson : GltfLoaderEvent → Bool
  | .releaseJson _ => true
  | _ => false

/-- **C9**: `unload()` is idempotent from every state (including `READY`
and `FAILED`, since the state field is unconstrained): it is a total
function (raising no error), it leaves the loader holding no cache
references (document-loader reference gone, sub-loader list empty), a
second call is a no-op producing no further cache releases, and across two
consecutive calls the document-loader reference is released at most
once. -/
theorem c9_unload_idempotent (st : GltfLoaderState) :
    (GltfLoader.unload st).1.gltfJsonLoader = none ∧
    (GltfLoader.unload st).1.loaders = [] ∧
    GltfLoader.unload (GltfLoader.unload st).1 = ((GltfLoader.unload st).1, []) ∧
    ((GltfLoader.unload st).2 ++
        (GltfLoader.unload (GltfLoader.unload st).1).2).countP
      GltfLoaderEvent.isReleaseJson ≤ 1 := by
  refine ⟨rfl, rfl, rfl, ?_⟩
  have hz : ∀ l : List Nat,
      (l.map GltfLoaderEvent.unloadSubLoader).countP GltfLoaderEvent.isReleaseJson = 0 := by
    intro l
    rw [List.countP_eq_zero]
    intro a ha
    rcases List.mem_map.mp ha with ⟨id, _, rfl⟩
    simp [GltfLoaderEvent.isReleaseJson]
  cases h : st.gltfJsonLoader with
  | none => simp [GltfLoader.unload, h, List.countP_append, hz]
  | some id =>
    simp [GltfLoader.unload, h, List.countP_append, List.countP_cons, hz,
      GltfLoaderEvent.isReleaseJson]

/-- **C2**: on any failure (document fetch or sub-loader) the loader first
performs its full unload — releasing the document-loader reference and
unloading every spawned sub-loader — before rejecting the public promise,
and the rejection carries a top-level `"Failed to load glTF"` error
wrapping the originating cause. Both failure callbacks (`load()`'s
rejection handler and the `when.all` rejection handler) reduce to
`handleError` when the loader is not destroyed. -/
theorem c2_failure_unloads_before_reject (st : GltfLoaderState) (error : GltfError) :
    (handleError st error).1.gltfJsonLoader = none ∧
    (handleError st error).1.loaders = [] ∧
    (handleError st error).1.state = .FAILED ∧
    (handleError st error).1.promiseResult =
      some (.error (GltfError.wrap "Failed to load glTF" error)) ∧
    (handleError st error).2 =
      (GltfLoader.unload st).2 ++
        [GltfLoaderEvent.rejectPromise (GltfError.wrap "Failed to load glTF" error)] ∧
    (∀ e ∈ (GltfLoader.unload st).2, e.isUnloadStep = true) ∧
    documentFetchOtherwise false st error = handleError st error ∧
    (∀ outcomes e, whenAll outcomes = .error e →
      aggregateFinish false st outcomes = handleError st e) := by
  refine ⟨rfl, rfl, rfl, rfl, rfl, ?_, rfl, ?_⟩
  · intro e he
    cases h : st.gltfJsonLoader with
    | none =>
      simp only [GltfLoader.unload, h, List.nil_append] at he
      rcases List.mem_map.mp he with ⟨id, _, rfl⟩
      rfl
    | some id =>
      simp only [GltfLoader.unload, h, List.singleton_append] at he
      rcases List.mem_cons.mp he with rfl | hmem
      · rfl
      · rcases List.mem_map.mp hmem with ⟨id', _, rfl⟩
        rfl
  · intro outcomes e h
    simp [aggregateFinish, h]

/-- **C1**: completion atomicity of the aggregate registered by `parse`
over the promises of every sub-loader spawned during assembly: (not
destroyed) the loader's state becomes `READY` iff all sub-loader
outcomes are fulfillments, the public promise resolves iff all outcomes
are fulfillments — so a partially-populated graph is never surfaced as
success — and any single rejection drives the loader to `FAILED` with the
public promise rejected. -/
theorem c1_completion_atomicity (st : GltfLoaderState)
    (outcomes : List (Except GltfError Unit)) :
    ((aggregateFinish false st outcomes).1.state = .READY ↔
      ∀ r ∈ outcomes, r = .ok ()) ∧
    ((aggregateFinish false st outcomes).1.promiseResult = some (.ok ()) ↔
      ∀ r ∈ outcomes, r = .ok ()) ∧
    (∀ e, Except.error e ∈ outcomes →
      (aggregateFinish false st outcomes).1.state = .FAILED ∧
      ∃ cause, (aggregateFinish false st outcomes).1.promiseResult =
        some (.error (GltfError.wrap "Failed to load glTF" cause))) := by
  refine ⟨?_, ?_, ?_⟩
  · constructor
    · intro h
      by_contra hall
      rw [← whenAll_ok_iff] at hall
      cases hw : whenAll outcomes with
      | ok u => cases u; exact hall hw
      | error e => simp [aggregateFinish, hw, handleError] at h
    · intro hall
      rw [← whenAll_ok_iff] at hall
      simp [aggregateFinish, hall]
  · constructor
    · intro h
      by_contra hall
      rw [← whenAll_ok_iff] at hall
      cases hw : whenAll outcomes with
      | ok u => cases u; exact hall hw
      | error e => simp [aggregateFinish, hw, handleError] at h
    · intro hall
      rw [← whenAll_ok_iff] at hall
      simp [aggregateFinish, hall]
  · intro e he
    rcases whenAll_error_of_mem outcomes e he with ⟨f, hf⟩
    exact ⟨by simp [aggregateFinish, hf, handleError, ResourceLoader.getError],
           f, by simp [aggregateFinish, hf, handleError, ResourceLoader.getError]⟩

/-- **C8**: every completion continuation registered during assembly —
vertex buffer, instanced vertex buffer, instanced buffer view, index
buffer, texture, skin buffer view, feature metadata, the aggregate
completion and the document-fetch callbacks — checks the destroyed flag
first and performs no mutation of scene-graph objects or loader state
when the owner has been destroyed. -/
theorem c8_destroyed_continuations_mutate_nothing
    (draco : Option Draco) (semantic : String)
    (vertexBufferLoader : GltfVertexBufferLoaderResult)
    (a : ModelComponents.Attribute) (vertexBuffer : BufferHandle)
    (gltf : Gltf) (accessor : GltfAccessor) (bufferViewTypedArray : List ℚ)
    (indexBuffer : BufferHandle) (indices : ModelComponents.Indices)
    (loadedTexture : TextureHandle) (texture : ModelComponents.Texture)
    (jointsLength : Nat) (skin : ModelComponents.Skin)
    (featureMetadata : FeatureMetadata) (components : ModelComponents.Components)
    (st : GltfLoaderState) (outcomes : List (Except GltfError Unit))
    (error : GltfError) :
    vertexAttributeContinuation true draco semantic vertexBufferLoader a = some a ∧
    instancedAttributeBufferContinuation true vertexBuffer a = a ∧
    instancedAttributeTypedArrayContinuation true gltf accessor
      bufferViewTypedArray a = a ∧
    indicesContinuation true indexBuffer indices = indices ∧
    textureContinuation true loadedTexture texture = texture ∧
    skinBufferViewContinuation true gltf accessor jointsLength
      bufferViewTypedArray skin = skin ∧
    featureMetadataContinuation true featureMetadata components = components ∧
    aggregateFinish true st outcomes = (st, []) ∧
    documentFetchThen true st = st ∧
    documentFetchOtherwise true st error = (st, []) := by
  refine ⟨rfl, rfl, rfl, rfl, rfl, rfl, rfl, ?_, rfl, rfl⟩
  cases hw : whenAll outcomes with
  | ok u => simp [aggregateFinish, hw]
  | error e => simp [aggregateFinish, hw]

/-! ## Claim theorems: attribute / skin / material / feature-id assembly -/

/-- **C6**: for every vertex attribute decoded from a Draco-compressed
payload (the Draco payload's attribute map covers the semantic, and the
resolved vertex-buffer loader carries a quantization), the continuation
sets the byte offset to 0, clears the byte stride, records the
quantization descriptor, takes the quantization's component datatype, and
reclassifies an octahedral-encoded attribute as 2-component — regardless
of the attribute's previously declared arity. -/
theorem c6_draco_attribute_overrides (draco : Draco)
    (attrs : List (String × Nat)) (semantic : String)
    (vertexBufferLoader : GltfVertexBufferLoaderResult) (q : Quantization)
    (a : ModelComponents.Attribute)
    (h1 : draco.attributes = some attrs)
    (h2 : (attrs.lookup semantic).isSome = true)
    (h3 : vertexBufferLoader.quantization = some q) :
    ∃ a', vertexAttributeContinuation false (some draco) semantic
        vertexBufferLoader a = some a' ∧
      a'.byteOffset = some 0 ∧
      a'.byteStride = none ∧
      a'.quantization = some q ∧
      a'.componentDatatype = some q.componentDatatype ∧
      a'.buffer = some vertexBufferLoader.vertexBuffer ∧
      (q.octEncoded = true → a'.type = some AttributeType.VEC2) := by
  have hcov : dracoCovers (some draco) semantic = true := by
    simp [dracoCovers, h1, h2]
  cases hoct : q.octEncoded with
  | false =>
    have hres : vertexAttributeContinuation false (some draco) semantic
        vertexBufferLoader a = some
          { a with
            buffer := some vertexBufferLoader.vertexBuffer
            byteOffset := some 0
            byteStride := none
            componentDatatype := some q.componentDatatype
            quantization := some q } := by
      simp [vertexAttributeContinuation, hcov, h3, hoct]
    exact ⟨_, hres, rfl, rfl, rfl, rfl, rfl, fun h => by simp [hoct] at h⟩
  | true =>
    have hres : vertexAttributeContinuation false (some draco) semantic
        vertexBufferLoader a = some
          { a with
            buffer := some vertexBufferLoader.vertexBuffer
            byteOffset := some 0
            byteStride := none
            componentDatatype := some q.componentDatatype
            type := some AttributeType.VEC2
            quantization := some q } := by
      simp [vertexAttributeContinuation, hcov, h3, hoct]
    exact ⟨_, hres, rfl, rfl, rfl, rfl, rfl, fun _ => rfl⟩

/-- Witness for C6 at a concrete octahedral-encoded normal attribute
declared `VEC3`. -/
theorem c6_witness :
    (Draco.mk (some [("NORMAL", 0)])).attributes = some [("NORMAL", 0)] ∧
    (([("NORMAL", 0)] : List (String × Nat)).lookup "NORMAL").isSome = true ∧
    (GltfVertexBufferLoaderResult.mk 5
        (some { componentDatatype := .UNSIGNED_SHORT, octEncoded := true })).quantization =
      some { componentDatatype := .UNSIGNED_SHORT, octEncoded := true } ∧
    ∃ a', vertexAttributeContinuation false (some (Draco.mk (some [("NORMAL", 0)])))
        "NORMAL" (GltfVertexBufferLoaderResult.mk 5
          (some { componentDatatype := .UNSIGNED_SHORT, octEncoded := true }))
        { type := some AttributeType.VEC3, byteOffset := some 24,
          byteStride := some 12 } = some a' ∧
      a'.byteOffset = some 0 ∧
      a'.byteStride = none ∧
      a'.quantization = some { componentDatatype := .UNSIGNED_SHORT, octEncoded := true } ∧
      a'.componentDatatype = some ComponentDatatype.UNSIGNED_SHORT ∧
      a'.buffer = some 5 ∧
      ((true : Bool) = true → a'.type = some AttributeType.VEC2) :=
  ⟨rfl, by decide, rfl,
    c6_draco_attribute_overrides _ _ _ _ _ _ rfl (by decide) rfl⟩

/-- **C3**: `loadSkin` reads the accessor id from `skin.inverseBindMatrices`
— a field of the `Skin` it just constructed, still `undefined` — instead of
`gltfSkin.inverseBindMatrices`. The defaulting branch therefore always
runs: the constructed skin's inverse-bind matrices are one identity matrix
per joint even when the document declares an inverse-bind-matrix accessor
backed by a buffer view. -/
theorem c3_skin_always_identity_matrices (gltf : Gltf) (gltfSkin : GltfSkin)
    (nodes : List ModelComponents.Node) :
    (loadSkinConstruct gltf gltfSkin nodes).inverseBindMatrices =
      some (List.replicate gltfSkin.joints.length Matrix4.IDENTITY) := by
  simp [loadSkinConstruct]

/-- **C4**: `loadMaterial` consults `material.extensions`,
`material.emissiveTexture`, `material.normalTexture` and
`material.occlusionTexture` on the freshly constructed `Material` instead
of on `gltfMaterial`, so the specular-glossiness channel and the emissive /
normal / occlusion texture slots are never populated, whatever the
document declares; the metallic-roughness channel, alpha mode, cutoff and
double-sided flag are taken from the document as the claim states. -/
theorem c4_material_channels_never_populated (gltf : Gltf)
    (gltfMaterial : GltfMaterial) (supportedImageFormats : SupportedImageFormats) :
    (loadMaterial gltf gltfMaterial supportedImageFormats).specularGlossiness = none ∧
    (loadMaterial gltf gltfMaterial supportedImageFormats).emissiveTexture = none ∧
    (loadMaterial gltf gltfMaterial supportedImageFormats).normalTexture = none ∧
    (loadMaterial gltf gltfMaterial supportedImageFormats).occlusionTexture = none ∧
    (loadMaterial gltf gltfMaterial supportedImageFormats).alphaMode =
      gltfMaterial.alphaMode ∧
    (loadMaterial gltf gltfMaterial supportedImageFormats).alphaCutoff =
      gltfMaterial.alphaCutoff ∧
    (loadMaterial gltf gltfMaterial supportedImageFormats).doubleSided =
      gltfMaterial.doubleSided ∧
    ((loadMaterial gltf gltfMaterial supportedImageFormats).metallicRoughness.isSome ↔
      gltfMaterial.pbrMetallicRoughness.isSome) := by
  cases h : gltfMaterial.pbrMetallicRoughness with
  | none => simp [loadMaterial, h]
  | some pbr =>
    cases hb : pbr.baseColorTexture <;> cases hm : pbr.metallicRoughnessTexture <;>
      simp [loadMaterial, h, hb, hm]

/-- The material block leaves morph and feature-ID fields untouched. -/
theorem loadPrimitiveMaterialStep_fields (gltf : Gltf)
    (gltfPrimitive : GltfPrimitive) (sif : SupportedImageFormats)
    (p p' : ModelComponents.Primitive)
    (h : loadPrimitiveMaterialStep gltf gltfPrimitive sif p = some p') :
    p'.featureIdAttributes = p.featureIdAttributes ∧
    p'.morphWeights = p.morphWeights ∧
    p'.morphTargets = p.morphTargets := by
  unfold loadPrimitiveMaterialStep at h
  split at h
  · cases h; exact ⟨rfl, rfl, rfl⟩
  · split at h
    · simp at h
    · cases h; exact ⟨rfl, rfl, rfl⟩

/-- The vertex-attribute block leaves morph and feature-ID fields
untouched. -/
theorem loadPrimitiveAttributesStep_fields (gltf : Gltf)
    (gltfPrimitive : GltfPrimitive) (draco : Option Draco)
    (p p' : ModelComponents.Primitive)
    (h : loadPrimitiveAttributesStep gltf gltfPrimitive draco p = some p') :
    p'.featureIdAttributes = p.featureIdAttributes ∧
    p'.morphWeights = p.morphWeights ∧
    p'.morphTargets = p.morphTargets := by
  unfold loadPrimitiveAttributesStep at h
  split at h
  · cases h; exact ⟨rfl, rfl, rfl⟩
  · split at h
    · simp at h
    · cases h; exact ⟨rfl, rfl, rfl⟩

/-- The morph-target block leaves the feature-ID attributes untouched. -/
theorem loadPrimitiveTargetsStep_featureIdAttributes (gltf : Gltf)
    (gltfPrimitive : GltfPrimitive) (morphWeights : Option (List ℚ))
    (p p' : ModelComponents.Primitive)
    (h : loadPrimitiveTargetsStep gltf gltfPrimitive morphWeights p = some p') :
    p'.featureIdAttributes = p.featureIdAttributes := by
  unfold loadPrimitiveTargetsStep at h
  split at h
  · cases h; rfl
  · split at h
    · simp at h
    · cases h; rfl

/-- The morph-target block: with targets declared, the weights are the
passed array when defined, else zero-filled to the target count, and one
morph target is appended per declared target. -/
theorem loadPrimitiveTargetsStep_weights (gltf : Gltf)
    (gltfPrimitive : GltfPrimitive) (morphWeights : Option (List ℚ))
    (p p' : ModelComponents.Primitive) (targets : List (List (String × Nat)))
    (ht : gltfPrimitive.targets = some targets)
    (h : loadPrimitiveTargetsStep gltf gltfPrimitive morphWeights p = some p') :
    p'.morphWeights =
      some (morphWeights.getD (List.replicate targets.length 0)) ∧
    ∃ mts, mapOption (loadMorphTarget gltf) targets = some mts ∧
      p'.morphTargets = p.morphTargets ++ mts := by
  cases hm : mapOption (loadMorphTarget gltf) targets with
  | none =>
    simp [loadPrimitiveTargetsStep, ht, hm] at h
  | some mts =>
    simp only [loadPrimitiveTargetsStep, ht, hm, Option.some.injEq] at h
    subst h
    refine ⟨?_, mts, rfl, rfl⟩
    cases morphWeights <;> rfl

/-- The indices block leaves morph and feature-ID fields untouched. -/
theorem loadPrimitiveIndicesStep_fields (gltf : Gltf)
    (gltfPrimitive : GltfPrimitive) (draco : Option Draco)
    (p p' : ModelComponents.Primitive)
    (h : loadPrimitiveIndicesStep gltf gltfPrimitive draco p = some p') :
    p'.featureIdAttributes = p.featureIdAttributes ∧
    p'.morphWeights = p.morphWeights ∧
    p'.morphTargets = p.morphTargets := by
  unfold loadPrimitiveIndicesStep at h
  split at h
  · cases h; exact ⟨rfl, rfl, rfl⟩
  · split at h
    · simp at h
    · cases h; exact ⟨rfl, rfl, rfl⟩

/-- The feature-metadata block never extends the feature-ID attributes
(its loop bound reads its own uninitialized variable, so zero entries are
appended) and leaves morph fields untouched. -/
theorem loadPrimitiveFeatureMetadataStep_fields (gltf : Gltf)
    (featureMetadata : Option FeatureMetadataExt) (sif : SupportedImageFormats)
    (p p' : ModelComponents.Primitive)
    (h : loadPrimitiveFeatureMetadataStep gltf featureMetadata sif p = some p') :
    p'.featureIdAttributes = p.featureIdAttributes ∧
    p'.morphWeights = p.morphWeights ∧
    p'.morphTargets = p.morphTargets := by
  cases featureMetadata with
  | none =>
    simp only [loadPrimitiveFeatureMetadataStep, Option.some.injEq] at h
    subst h
    exact ⟨rfl, rfl, rfl⟩
  | some fm =>
    cases hfa : fm.featureIdAttributes with
    | none =>
      cases hft : fm.featureIdTextures with
      | none =>
        simp only [loadPrimitiveFeatureMetadataStep, hfa, hft,
          Option.some.injEq] at h
        subst h
        exact ⟨rfl, rfl, rfl⟩
      | some featureIdTextures =>
        cases hmap : mapOption
            (fun t => loadFeatureIdTexture gltf t sif) featureIdTextures with
        | none =>
          simp [loadPrimitiveFeatureMetadataStep, hfa, hft, hmap] at h
        | some loaded =>
          simp only [loadPrimitiveFeatureMetadataStep, hfa, hft, hmap,
            Option.some.injEq] at h
          subst h
          exact ⟨rfl, rfl, rfl⟩
    | some featureIdAttributes =>
      cases hft : fm.featureIdTextures with
      | none =>
        simp only [loadPrimitiveFeatureMetadataStep, hfa, hft,
          Option.some.injEq] at h
        subst h
        refine ⟨?_, rfl, rfl⟩
        simp [jsLoopCount]
      | some featureIdTextures =>
        cases hmap : mapOption
            (fun t => loadFeatureIdTexture gltf t sif) featureIdTextures with
        | none =>
          simp [loadPrimitiveFeatureMetadataStep, hfa, hft, hmap] at h
        | some loaded =>
          simp only [loadPrimitiveFeatureMetadataStep, hfa, hft, hmap,
            Option.some.injEq] at h
          subst h
          refine ⟨?_, rfl, rfl⟩
          simp [jsLoopCount]

/-- `loadPrimitive` decomposes into its five blocks followed by the
`primitiveType` assignment. -/
theorem loadPrimitive_decompose (gltf : Gltf) (gltfPrimitive : GltfPrimitive)
    (morphWeights : Option (List ℚ)) (sif : SupportedImageFormats)
    (prim : ModelComponents.Primitive)
    (h : loadPrimitive gltf gltfPrimitive morphWeights sif = some prim) :
    ∃ p1 p2 p3 p4 p5,
      loadPrimitiveMaterialStep gltf gltfPrimitive sif {} = some p1 ∧
      loadPrimitiveAttributesStep gltf gltfPrimitive
        gltfPrimitive.extensionsOrEmpty.KHR_draco_mesh_compression p1 = some p2 ∧
      loadPrimitiveTargetsStep gltf gltfPrimitive morphWeights p2 = some p3 ∧
      loadPrimitiveIndicesStep gltf gltfPrimitive
        gltfPrimitive.extensionsOrEmpty.KHR_draco_mesh_compression p3 = some p4 ∧
      loadPrimitiveFeatureMetadataStep gltf
        gltfPrimitive.extensionsOrEmpty.EXT_feature_metadata sif p4 = some p5 ∧
      prim = { p5 with primitiveType := gltfPrimitive.mode } := by
  cases h1 : loadPrimitiveMaterialStep gltf gltfPrimitive sif {} with
  | none => simp [loadPrimitive, h1] at h
  | some p1 =>
    cases h2 : loadPrimitiveAttributesStep gltf gltfPrimitive
        gltfPrimitive.extensionsOrEmpty.KHR_draco_mesh_compression p1 with
    | none => simp [loadPrimitive, h1, h2] at h
    | some p2 =>
      cases h3 : loadPrimitiveTargetsStep gltf gltfPrimitive morphWeights p2 with
      | none => simp [loadPrimitive, h1, h2, h3] at h
      | some p3 =>
        cases h4 : loadPrimitiveIndicesStep gltf gltfPrimitive
            gltfPrimitive.extensionsOrEmpty.KHR_draco_mesh_compression p3 with
        | none => simp [loadPrimitive, h1, h2, h3, h4] at h
        | some p4 =>
          cases h5 : loadPrimitiveFeatureMetadataStep gltf
              gltfPrimitive.extensionsOrEmpty.EXT_feature_metadata sif p4 with
          | none => simp [loadPrimitive, h1, h2, h3, h4, h5] at h
          | some p5 =>
            simp only [loadPrimitive, h1, h2, h3, h4, h5,
              Option.some.injEq] at h
            exact ⟨p1, p2, p3, p4, p5, rfl, h2, h3, h4, h5, h.symm⟩

/-- `loadInstances` pushes no feature-ID attributes: its loop bound reads
its own uninitialized variable. -/
theorem loadInstances_featureIdAttributes (gltf : Gltf)
    (instancingExtension : InstancingExtension) (frameState : FrameState)
    (inst : ModelComponents.Instances)
    (h : loadInstances gltf instancingExtension frameState = some inst) :
    inst.featureIdAttributes = [] := by
  cases hattrs : instancingExtension.attributes with
  | none =>
    cases hext : instancingExtension.extensions with
    | none =>
      simp only [loadInstances, hattrs, hext, InstancingExtExtensions.empty,
        Option.some.injEq] at h
      subst h
      rfl
    | some exts =>
      cases hfm : exts.EXT_feature_metadata with
      | none =>
        simp only [loadInstances, hattrs, hext, hfm, Option.some.injEq] at h
        subst h
        rfl
      | some fm =>
        cases hfa : fm.featureIdAttributes with
        | none =>
          simp only [loadInstances, hattrs, hext, hfm, hfa,
            Option.some.injEq] at h
          subst h
          rfl
        | some featureIdAttributes =>
          simp only [loadInstances, hattrs, hext, hfm, hfa,
            Option.some.injEq] at h
          subst h
          simp [jsLoopCount]
  | some attributes =>
    cases hmap : mapOption
        (fun sa => loadInstancedAttribute gltf sa.2 sa.1 frameState) attributes with
    | none => simp [loadInstances, hattrs, hmap] at h
    | some loaded =>
      cases hext : instancingExtension.extensions with
      | none =>
        simp only [loadInstances, hattrs, hmap, hext,
          InstancingExtExtensions.empty, Option.some.injEq] at h
        subst h
        rfl
      | some exts =>
        cases hfm : exts.EXT_feature_metadata with
        | none =>
          simp only [loadInstances, hattrs, hmap, hext, hfm,
            Option.some.injEq] at h
          subst h
          rfl
        | some fm =>
          cases hfa : fm.featureIdAttributes with
          | none =>
            simp only [loadInstances, hattrs, hmap, hext, hfm, hfa,
              Option.some.injEq] at h
            subst h
            rfl
          | some featureIdAttributes =>
            simp only [loadInstances, hattrs, hmap, hext, hfm, hfa,
              Option.some.injEq] at h
            subst h
            simp [jsLoopCount]

/-- **C5**: the feature-ID-attribute loops of `loadPrimitive` and
`loadInstances` declare their bound as
`var featureIdAttributesLength = featureIdAttributesLength;` — a read of
the hoisted, still-undefined variable itself — so zero `FeatureIdAttribute`
objects are pushed, not one per declared entry: the produced lists are
always empty, whatever the extension payload declares. -/
theorem c5_feature_id_attributes_never_pushed (gltf : Gltf)
    (gltfPrimitive : GltfPrimitive) (morphWeights : Option (List ℚ))
    (sif : SupportedImageFormats) (instancingExtension : InstancingExtension)
    (frameState : FrameState) (prim : ModelComponents.Primitive)
    (inst : ModelComponents.Instances)
    (h1 : loadPrimitive gltf gltfPrimitive morphWeights sif = some prim)
    (h2 : loadInstances gltf instancingExtension frameState = some inst) :
    prim.featureIdAttributes = [] ∧ inst.featureIdAttributes = [] := by
  refine ⟨?_, loadInstances_featureIdAttributes gltf instancingExtension
    frameState inst h2⟩
  rcases loadPrimitive_decompose gltf gltfPrimitive morphWeights sif prim h1 with
    ⟨p1, p2, p3, p4, p5, s1, s2, s3, s4, s5, heq⟩
  have e1 := (loadPrimitiveMaterialStep_fields _ _ _ _ _ s1).1
  have e2 := (loadPrimitiveAttributesStep_fields _ _ _ _ _ s2).1
  have e3 := loadPrimitiveTargetsStep_featureIdAttributes _ _ _ _ _ s3
  have e4 := (loadPrimitiveIndicesStep_fields _ _ _ _ _ s4).1
  have e5 := (loadPrimitiveFeatureMetadataStep_fields _ _ _ _ _ s5).1
  subst heq
  show p5.featureIdAttributes = []
  rw [e5, e4, e3, e2, e1]

/-- What `loadNode` produces: the skin and instances fields are never set
(the instancing block reads `extensions` off the fresh `Node`), and with a
mesh declared the primitives are exactly the `loadPrimitive` results over
the mesh's primitives, each receiving
`defaultValue(gltfNode.weights, mesh.weights)`. -/
theorem loadNode_result (gltf : Gltf) (gltfNode : GltfNode)
    (sif : SupportedImageFormats) (frameState : FrameState)
    (node : ModelComponents.Node)
    (h : loadNode gltf gltfNode sif frameState = some node) :
    node.skin = none ∧ node.instances = none ∧ node.extensions = none ∧
    ∀ meshId mesh, gltfNode.mesh = some meshId →
      gltf.meshes.get? meshId = some mesh →
      ∃ prims, mapOption
          (fun p => loadPrimitive gltf p
            (defaultValue gltfNode.weights mesh.weights) sif)
          mesh.primitives = some prims ∧
        node.primitives = prims := by
  cases hmesh : gltfNode.mesh with
  | none =>
    simp only [loadNode, hmesh, NodeExtensions.empty, Option.some.injEq] at h
    subst h
    refine ⟨rfl, rfl, rfl, ?_⟩
    intro meshId mesh hm
    exact Option.noConfusion hm
  | some meshId' =>
    cases hget : gltf.meshes.get? meshId' with
    | none =>
      simp only [loadNode, hmesh, hget, NodeExtensions.empty] at h
      exact Option.noConfusion h
    | some mesh' =>
      cases hmap : mapOption
          (fun p => loadPrimitive gltf p
            (defaultValue gltfNode.weights mesh'.weights) sif)
          mesh'.primitives with
      | none =>
        simp only [loadNode, hmesh, hget, hmap, NodeExtensions.empty] at h
        exact Option.noConfusion h
      | some prims =>
        simp only [loadNode, hmesh, hget, hmap, NodeExtensions.empty,
          Option.some.injEq] at h
        subst h
        refine ⟨rfl, rfl, rfl, ?_⟩
        intro meshId mesh hm hg
        cases hm
        rw [hget] at hg
        cases hg
        exact ⟨prims, hmap, by simp⟩

/-- `defaultValue` followed by defaulting equals nested defaulting. -/
theorem defaultValue_getD {α : Type} (a b : Option α) (z : α) :
    (defaultValue a b).getD z = a.getD (b.getD z) := by
  cases a <;> rfl

/-- **C7**: a primitive with N morph targets gets, as its `morphWeights`,
the owning node's weights when the node declares them, else the mesh's
default weights, else a zero-filled array of length N; declared weights are
copied element-wise (`slice()`, which under this value model is equality),
and one morph target is produced per declared target. -/
theorem c7_morph_weight_defaulting (gltf : Gltf) (gltfNode : GltfNode)
    (sif : SupportedImageFormats) (frameState : FrameState)
    (node : ModelComponents.Node) (meshId k : Nat) (mesh : GltfMesh)
    (gltfPrim : GltfPrimitive) (targets : List (List (String × Nat)))
    (h1 : gltfNode.mesh = some meshId)
    (h2 : gltf.meshes.get? meshId = some mesh)
    (h3 : loadNode gltf gltfNode sif frameState = some node)
    (h4 : mesh.primitives.get? k = some gltfPrim)
    (h5 : gltfPrim.targets = some targets) :
    ∃ prim, node.primitives.get? k = some prim ∧
      prim.morphWeights = some
        (gltfNode.weights.getD (mesh.weights.getD
          (List.replicate targets.length 0))) ∧
      prim.morphTargets.length = targets.length := by
  rcases (loadNode_result gltf gltfNode sif frameState node h3).2.2.2
    meshId mesh h1 h2 with ⟨prims, hmap, hnp⟩
  rcases mapOption_get? _ _ _ hmap k gltfPrim h4 with ⟨prim, hk, hload⟩
  rcases loadPrimitive_decompose gltf gltfPrim _ sif prim hload with
    ⟨p1, p2, p3, p4, p5, s1, s2, s3, s4, s5, heq⟩
  rcases loadPrimitiveTargetsStep_weights gltf gltfPrim _ p2 p3 targets h5 s3 with
    ⟨hw3, mts, hmts, hmt3⟩
  have hmtlen := mapOption_length _ _ _ hmts
  have e1 := loadPrimitiveMaterialStep_fields _ _ _ _ _ s1
  have e2 := loadPrimitiveAttributesStep_fields _ _ _ _ _ s2
  have e4 := loadPrimitiveIndicesStep_fields _ _ _ _ _ s4
  have e5 := loadPrimitiveFeatureMetadataStep_fields _ _ _ _ _ s5
  refine ⟨prim, by rw [hnp]; exact hk, ?_, ?_⟩
  · have : prim.morphWeights = p3.morphWeights := by
      rw [heq]
      show p5.morphWeights = p3.morphWeights
      rw [e5.2.1, e4.2.1]
    rw [this, hw3, defaultValue_getD]
  · have : prim.morphTargets = p3.morphTargets := by
      rw [heq]
      show p5.morphTargets = p3.morphTargets
      rw [e5.2.2, e4.2.2]
    rw [this, hmt3, e2.2.2, e1.2.2]
    show (({} : ModelComponents.Primitive).morphTargets ++ mts).length = targets.length
    simp [hmtlen]

/-- One children-wiring iteration touches no node's skin field. -/
theorem wireChildrenStep_skin_none (gltf : Gltf)
    (ns : List ModelComponents.Node) (i : Nat)
    (h : ∀ n ∈ ns, n.skin = none) :
    ∀ n ∈ wireChildrenStep gltf ns i, n.skin = none := by
  intro n hn
  unfold wireChildrenStep at hn
  split at hn
  · exact h n hn
  · split at hn
    · exact h n hn
    · split at hn
      · exact h n hn
      · rename_i n0 hn0
        rcases List.mem_or_eq_of_mem_set hn with hmem | rfl
        · exact h n hmem
        · exact h n0 (List.get?_mem hn0)

/-- Wiring children references touches no node's skin field. -/
theorem wireChildren_skin_none (gltf : Gltf)
    (nodes : List ModelComponents.Node)
    (h : ∀ n ∈ nodes, n.skin = none) :
    ∀ n ∈ wireChildren gltf nodes, n.skin = none := by
  unfold wireChildren
  generalize List.range nodes.length = idxs
  induction idxs generalizing nodes with
  | nil => simpa using h
  | cons i is ih =>
    simp only [List.foldl_cons]
    exact ih (wireChildrenStep gltf nodes i)
      (wireChildrenStep_skin_none gltf nodes i h)

/-- The skin-assignment fold propagates a `none` accumulator (a thrown
exception aborts the pass). -/
theorem assignSkinsFold_none (gltf : Gltf) (idxs : List Nat) :
    idxs.foldl (assignSkinsStep gltf) none = none := by
  induction idxs with
  | nil => rfl
  | cons i is ih => simpa [assignSkinsStep] using ih

/-- One skin-assignment iteration leaves every node's skin `none`: the
value it assigns is `loadSkin`'s return value, which is `undefined`. -/
theorem assignSkinsStep_skin_none (gltf : Gltf)
    (ns : List ModelComponents.Node) (i : Nat)
    (h : ∀ n ∈ ns, n.skin = none)
    (ns' : List ModelComponents.Node)
    (h' : assignSkinsStep gltf (some ns) i = some ns') :
    ∀ n ∈ ns', n.skin = none := by
  cases hg : gltf.nodes.get? i with
  | none =>
    simp only [assignSkinsStep, hg, Option.some.injEq] at h'
    subst h'
    exact h
  | some gltfNode =>
    cases hs : gltfNode.skin with
    | none =>
      simp only [assignSkinsStep, hg, hs, Option.some.injEq] at h'
      subst h'
      exact h
    | some skinId =>
      cases hsk : gltf.skins.get? skinId with
      | none =>
        simp only [assignSkinsStep, hg, hs, hsk] at h'
        exact Option.noConfusion h'
      | some gltfSkin =>
        cases hni : ns.get? i with
        | none =>
          simp only [assignSkinsStep, hg, hs, hsk, hni, Option.some.injEq] at h'
          subst h'
          exact h
        | some n0 =>
          simp only [assignSkinsStep, hg, hs, hsk, hni, Option.some.injEq] at h'
          subst h'
          intro n hn
          rcases List.mem_or_eq_of_mem_set hn with hmem | rfl
          · exact h n hmem
          · rfl

/-- The skin-assignment pass leaves every node's skin `none`. -/
theorem assignSkins_skin_none (gltf : Gltf)
    (nodes : List ModelComponents.Node)
    (h : ∀ n ∈ nodes, n.skin = none)
    (nodes' : List ModelComponents.Node)
    (h' : assignSkins gltf nodes = some nodes') :
    ∀ n ∈ nodes', n.skin = none := by
  unfold assignSkins at h'
  generalize List.range gltf.nodes.length = idxs at h'
  induction idxs generalizing nodes with
  | nil =>
    simp only [List.foldl_nil, Option.some.injEq] at h'
    subst h'
    exact h
  | cons i is ih =>
    simp only [List.foldl_cons] at h'
    cases hstep : assignSkinsStep gltf (some nodes) i with
    | none =>
      rw [hstep, assignSkinsFold_none] at h'
      exact Option.noConfusion h'
    | some ns1 =>
      rw [hstep] at h'
      exact ih ns1 (assignSkinsStep_skin_none gltf nodes i h ns1 hstep) h'

/-- **C10**: in the node table a completed load produces, every node's
skin field is `undefined`, even when the document declares a skin for the
node: `loadSkin` constructs a `Skin` but ends without a return statement,
and `loadNodes` assigns that `undefined` result to `nodes[i].skin`. -/
theorem c10_node_skin_always_undefined (gltf : Gltf)
    (sif : SupportedImageFormats) (frameState : FrameState)
    (nodes : List ModelComponents.Node)
    (h : loadNodes gltf sif frameState = some nodes) :
    (∀ gltfSkin ns, loadSkin gltf gltfSkin ns = none) ∧
    ∀ node ∈ nodes, node.skin = none := by
  refine ⟨fun _ _ => rfl, ?_⟩
  unfold loadNodes at h
  cases hmap : mapOption (fun n => loadNode gltf n sif frameState) gltf.nodes with
  | none => rw [hmap] at h; exact Option.noConfusion h
  | some ns =>
    rw [hmap] at h
    have hbase : ∀ n ∈ ns, n.skin = none := by
      intro n hn
      rcases mapOption_mem _ _ _ hmap n hn with ⟨gltfNode, _, hload⟩
      exact (loadNode_result gltf gltfNode sif frameState n hload).1
    exact assignSkins_skin_none gltf (wireChildren gltf ns)
      (wireChildren_skin_none gltf ns hbase) nodes h

/-! ## Witnesses at concrete inputs -/

/-- Witness for C1: one fulfilled outcome list reaches `READY`; a list with
a rejection reaches `FAILED`. -/
theorem c1_witness :
    (aggregateFinish false {} [Except.ok ()]).1.state =
      ResourceLoaderState.READY ∧
    (aggregateFinish false {}
        [Except.ok (), Except.error (GltfError.leaf "buffer fetch failed")]).1.state =
      ResourceLoaderState.FAILED :=
  ⟨(c1_completion_atomicity {} [Except.ok ()]).1.mpr (by decide),
   ((c1_completion_atomicity {}
       [Except.ok (), Except.error (GltfError.leaf "buffer fetch failed")]).2.2
     (GltfError.leaf "buffer fetch failed") (by decide)).1⟩

/-- Loader state for the C2 witness: document loader held, two spawned
sub-loaders. -/
def c2State : GltfLoaderState :=
  { gltfJsonLoader := some 3, loaders := [4, 5], state := .PROCESSING }

/-- Originating cause for the C2 witness. -/
def c2Cause : GltfError := GltfError.leaf "image decode failed"

/-- Witness for C2 at a concrete loader state and cause. -/
theorem c2_witness :
    (handleError c2State c2Cause).1.state = ResourceLoaderState.FAILED ∧
    GltfLoaderEvent.isUnloadStep (GltfLoaderEvent.releaseJson 3) = true ∧
    aggregateFinish false c2State [Except.error c2Cause] =
      handleError c2State c2Cause :=
  ⟨(c2_failure_unloads_before_reject c2State c2Cause).2.2.1,
   (c2_failure_unloads_before_reject c2State c2Cause).2.2.2.2.2.1
     (GltfLoaderEvent.releaseJson 3) (by decide),
   (c2_failure_unloads_before_reject c2State c2Cause).2.2.2.2.2.2.2
     [Except.error c2Cause] c2Cause rfl⟩

/-- Feature-metadata payload for the C5 witness: one declared feature-ID
attribute. -/
def c5Fm : FeatureMetadataExt :=
  { featureIdAttributes := some [{ featureTable := some "buildings" }] }

/-- Primitive for the C5 witness. -/
def c5Prim : GltfPrimitive :=
  { extensions := some { EXT_feature_metadata := some c5Fm } }

/-- Instancing block for the C5 witness. -/
def c5Inst : InstancingExtension :=
  { extensions := some { EXT_feature_metadata := some c5Fm } }

/-- Document for the C5 witness. -/
def c5Gltf : Gltf := {}

/-- Witness for C5: with one feature-ID attribute declared on both the
primitive and the instancing block, zero are produced. -/
theorem c5_witness :
    loadPrimitive c5Gltf c5Prim none {} = some {} ∧
    loadInstances c5Gltf c5Inst {} = some {} ∧
    (({} : ModelComponents.Primitive).featureIdAttributes = [] ∧
      ({} : ModelComponents.Instances).featureIdAttributes = []) :=
  ⟨rfl, rfl,
   c5_feature_id_attributes_never_pushed c5Gltf c5Prim none {} c5Inst {} {} {}
     rfl rfl⟩

/-- Document node for the C7 witness: a mesh, no node-level weights. -/
def c7Node : GltfNode := { mesh := some 0 }

/-- Primitive for the C7 witness: two morph targets. -/
def c7Prim : GltfPrimitive :=
  { targets := some [[("POSITION", 0)], [("POSITION", 0)]] }

/-- Mesh for the C7 witness: declares default weights. -/
def c7Mesh : GltfMesh := { primitives := [c7Prim], weights := some [2, 3] }

/-- Document for the C7 witness. -/
def c7Gltf : Gltf :=
  { accessors := [{ count := 3, type := .VEC3 }]
    meshes := [c7Mesh]
    nodes := [c7Node] }

/-- Witness for C7: the mesh's default weights are copied to the
primitive, and two morph targets are produced. -/
theorem c7_witness :
    ∃ prim, ((loadNode c7Gltf c7Node {} {}).getD {}).primitives.get? 0 =
        some prim ∧
      prim.morphWeights = some [(2 : ℚ), 3] ∧
      prim.morphTargets.length = 2 :=
  c7_morph_weight_defaulting c7Gltf c7Node {} {}
    ((loadNode c7Gltf c7Node {} {}).getD {}) 0 0 c7Mesh c7Prim
    [[("POSITION", 0)], [("POSITION", 0)]] rfl rfl rfl rfl rfl

/-- Document for the C10 witness: one node declaring a skin whose glTF
skin declares an inverse-bind-matrix accessor. -/
def c10Gltf : Gltf :=
  { accessors := [{ count := 1, type := .MAT4 }]
    nodes := [{ skin := some 0 }]
    skins := [{ joints := [0], inverseBindMatrices := some 0 }] }

/-- Witness for C10: the produced node's skin field is `undefined` even
though the document declares a skin. -/
theorem c10_witness :
    loadNodes c10Gltf {} {} = some [({} : ModelComponents.Node)] ∧
    ({} : ModelComponents.Node).skin = none :=
  ⟨rfl,
   (c10_node_skin_always_undefined c10Gltf {} {} [{}] rfl).2 {} (by decide)⟩
